import Mathlib

/-!
# Tank client (`game.js`): session store, input tracker, realtime handlers, renderer

A shallow embedding of the client script.  The script's module-level variables
become one `Store` record, every socket handler and key listener becomes a
function on that record, and the drawing functions return the sequence of
canvas calls they make.

Conventions of the embedding:

* JavaScript values received from the server are `JSVal`s: the values of JSON,
  `undefined`, and the built-in members a property read can inherit.  Numbers
  are exact rationals; the rounding of IEEE doubles is not modelled.
* A function that can throw returns `Except Abrupt _`.  `Abrupt.typeError` is a
  JavaScript `TypeError`.  `Abrupt.unmodelled` marks the few reads whose
  JavaScript result the embedding does not compute (a property of a built-in
  member, a code unit of a string beyond the Basic Multilingual Plane); no
  theorem treats it as a normal completion.
* Whether a conversion to a number or to a string throws is modelled exactly.
  The value of a conversion is computed where the script's control flow or a
  stated result depends on it, and is `uncomputed` otherwise (the numeric value
  of a text, the digits of a number that is not a safe integer).
-/

namespace Tank

/-! ## JavaScript values -/

/-- JavaScript values. An object is an association list of its own properties,
the first binding of a name being the property's value.  `builtin name` is the
built-in member that a read of the inherited property `name` returns (a
function, or the prototype object for `__proto__`). -/
inductive JSVal where
  | undefined : JSVal
  | null : JSVal
  | bool (b : Bool) : JSVal
  | num (q : ℚ) : JSVal
  | nan : JSVal
  | str (s : String) : JSVal
  | arr (items : List JSVal) : JSVal
  | obj (fields : List (String × JSVal)) : JSVal
  | builtin (name : String) : JSVal

/-- Abrupt completions. -/
inductive Abrupt where
  | typeError (what : String) : Abrupt
  | unmodelled (what : String) : Abrupt
  deriving DecidableEq, Repr

/-- JavaScript `ToBoolean`: `undefined`, `null`, `false`, `0`, `NaN` and `''`
are falsy, everything else (arrays, objects and functions included) is
truthy. -/
def JSVal.truthy : JSVal → Bool
  | .undefined => false
  | .null => false
  | .bool b => b
  | .num q => decide (q ≠ 0)
  | .nan => false
  | .str s => decide (s ≠ "")
  | .arr _ => true
  | .obj _ => true
  | .builtin _ => true

/-- Names that every value inherits from `Object.prototype`. -/
def objectPrototypeKeys : List String :=
  ["constructor", "__proto__", "hasOwnProperty", "isPrototypeOf",
   "propertyIsEnumerable", "toLocaleString", "toString", "valueOf",
   "__defineGetter__", "__defineSetter__", "__lookupGetter__", "__lookupSetter__"]

/-- Names that arrays inherit from `Array.prototype`. -/
def arrayPrototypeKeys : List String :=
  ["at", "concat", "copyWithin", "entries", "every", "fill", "filter", "find", "findIndex",
   "findLast", "findLastIndex", "flat", "flatMap", "forEach", "includes", "indexOf", "join",
   "keys", "lastIndexOf", "map", "pop", "push", "reduce", "reduceRight", "reverse", "shift",
   "slice", "some", "sort", "splice", "toReversed", "toSorted", "toSpliced", "unshift",
   "values", "with"]

/-- Names that strings inherit from `String.prototype`. -/
def stringPrototypeKeys : List String :=
  ["anchor", "at", "big", "blink", "bold", "charAt", "charCodeAt", "codePointAt", "concat",
   "endsWith", "fixed", "fontcolor", "fontsize", "includes", "indexOf", "isWellFormed",
   "italics", "lastIndexOf", "link", "localeCompare", "match", "matchAll", "normalize",
   "padEnd", "padStart", "repeat", "replace", "replaceAll", "search", "slice", "small",
   "split", "startsWith", "strike", "sub", "substr", "substring", "sup",
   "toLocaleLowerCase", "toLocaleUpperCase", "toLowerCase", "toUpperCase", "toWellFormed",
   "trim", "trimEnd", "trimLeft", "trimRight", "trimStart"]

/-- Names that numbers inherit from `Number.prototype`. -/
def numberPrototypeKeys : List String :=
  ["toExponential", "toFixed", "toPrecision"]

/-- The index a property name denotes, if it is the decimal form of a natural
number without leading zeros. -/
def canonicalIndex (key : String) : Option Nat :=
  let ds := key.data
  if ds ≠ [] ∧ ds.all Char.isDigit ∧ (ds.head? ≠ some '0' ∨ ds.length = 1) then
    some (ds.foldl (fun n c => 10 * n + (c.toNat - 48)) 0)
  else none

/-- Every character of the string is one UTF-16 code unit. -/
def inBMP (s : String) : Bool := s.data.all (fun c => decide (c.toNat < 65536))

/-- The value a read finds on the prototype chain: the built-in member when
the name is one of `inherited` or of `Object.prototype`, `undefined` otherwise. -/
def inheritedMember (inherited : List String) (key : String) : JSVal :=
  if key ∈ inherited ∨ key ∈ objectPrototypeKeys then .builtin key else .undefined

/-- Names the script reads by a fixed property name. -/
def scriptNames : List String :=
  ["matchId", "youAre", "map", "players", "p1", "p2", "bullets", "finished", "winner",
   "x", "y", "dirX", "dirY", "lives", "active", "size"]

/-- Property read `v.key` / `v[key]` with a string key.  Reading a property of
`undefined` or `null` throws a `TypeError`.  Otherwise the own property is
returned if there is one (a property of an object, an element or the length of
an array, a code unit or the length of a string), and else what the prototype
chain gives. -/
def JSVal.getProp (v : JSVal) (key : String) : Except Abrupt JSVal :=
  match v with
  | .undefined => .error (.typeError ("Cannot read properties of undefined (reading " ++ key ++ ")"))
  | .null => .error (.typeError ("Cannot read properties of null (reading " ++ key ++ ")"))
  | .obj fields =>
    match fields.lookup key with
    | some w => .ok w
    | none => .ok (inheritedMember [] key)
  | .arr items =>
    if key = "length" then .ok (.num items.length)
    else match canonicalIndex key with
      | some i => .ok (items.getD i .undefined)
      | none => .ok (inheritedMember arrayPrototypeKeys key)
  | .str s =>
    if key = "length" then
      (if inBMP s then .ok (.num s.data.length) else .error (.unmodelled "length of a string"))
    else match canonicalIndex key with
      | some i =>
        if inBMP s then
          .ok (match s.data.get? i with
            | some c => .str (String.singleton c)
            | none => .undefined)
        else .error (.unmodelled "code unit of a string")
      | none => .ok (inheritedMember stringPrototypeKeys key)
  | .num _ => .ok (inheritedMember numberPrototypeKeys key)
  | .nan => .ok (inheritedMember numberPrototypeKeys key)
  | .bool _ => .ok (inheritedMember [] key)
  | .builtin _ =>
    if key ∈ scriptNames then .ok .undefined else .error (.unmodelled "property of a built-in")

/-- Indexed read `v[i]` with a non-negative integer index. -/
def JSVal.getIndex (v : JSVal) (i : Nat) : Except Abrupt JSVal :=
  match v with
  | .undefined => .error (.typeError ("Cannot read properties of undefined (reading " ++ toString i ++ ")"))
  | .null => .error (.typeError ("Cannot read properties of null (reading " ++ toString i ++ ")"))
  | .arr items => .ok (items.getD i .undefined)
  | .obj fields => .ok ((fields.lookup (toString i)).getD .undefined)
  | .str s =>
    if inBMP s then
      .ok (match s.data.get? i with
        | some c => .str (String.singleton c)
        | none => .undefined)
    else .error (.unmodelled "code unit of a string")
  | _ => .ok .undefined

/-- Strict equality `v === n` against a number literal. -/
def JSVal.strictEqNum (v : JSVal) (n : ℚ) : Bool :=
  match v with
  | .num q => decide (q = n)
  | _ => false

/-- Strict equality `v === s` against a string literal. -/
def JSVal.strictEqStr (v : JSVal) (s : String) : Bool :=
  match v with
  | .str t => decide (t = s)
  | _ => false

mutual
/-- Whether converting the value to a primitive throws: an object does when it
has an own `toString` property (a JSON value is never callable, and the
inherited `valueOf` returns the object itself); an array does when the
conversion of one of its elements does, because its `toString` joins them. -/
def JSVal.conversionThrows : JSVal → Bool
  | .obj fields => fields.any (fun f => f.1 == "toString")
  | .arr items => conversionThrowsAny items
  | _ => false
/-- Whether the conversion of some element of the list throws. -/
def conversionThrowsAny : List JSVal → Bool
  | [] => false
  | v :: vs => v.conversionThrows || conversionThrowsAny vs
end

/-- A number handed to the canvas or produced by arithmetic; `uncomputed`
stands for a number whose value the embedding does not compute. -/
inductive Coord where
  | num (q : ℚ) : Coord
  | nan : Coord
  | uncomputed : Coord

/-- JavaScript `ToNumber`.  The numeric value of a text is not computed. -/
def JSVal.toNumber (v : JSVal) : Except Abrupt Coord :=
  match v with
  | .undefined => .ok .nan
  | .null => .ok (.num 0)
  | .bool b => .ok (.num (if b then 1 else 0))
  | .num q => .ok (.num q)
  | .nan => .ok .nan
  | .str _ => .ok .uncomputed
  | .arr _ =>
    if v.conversionThrows then .error (.typeError "Cannot convert object to primitive value")
    else .ok .uncomputed
  | .obj _ =>
    if v.conversionThrows then .error (.typeError "Cannot convert object to primitive value")
    else .ok .nan
  | .builtin _ => .ok .nan

/-- Binary numeric operator on converted operands: `NaN` is absorbing, and an
uncomputed operand gives an uncomputed result. -/
def numOp (f : ℚ → ℚ → ℚ) : Coord → Coord → Coord
  | .num a, .num b => .num (f a b)
  | .nan, _ => .nan
  | _, .nan => .nan
  | _, _ => .uncomputed

/-- JavaScript `a - b` for an already numeric `b`. -/
def JSVal.sub (a : JSVal) (b : Coord) : Except Abrupt Coord := do
  let x ← a.toNumber
  pure (numOp (fun p q => p - q) x b)

/-- JavaScript `a + c` for a number literal `c`: a text, array or object on the
left makes it a concatenation, whose result the canvas then reads as a number. -/
def JSVal.add (a : JSVal) (c : ℚ) : Except Abrupt Coord :=
  match a with
  | .str _ => .ok .uncomputed
  | .arr _ =>
    if a.conversionThrows then .error (.typeError "Cannot convert object to primitive value")
    else .ok .uncomputed
  | .obj _ =>
    if a.conversionThrows then .error (.typeError "Cannot convert object to primitive value")
    else .ok .nan
  | .builtin _ => .ok .nan
  | _ => do
    let x ← a.toNumber
    pure (numOp (fun p q => p + q) x (.num c))

/-- JavaScript `a / d` for a non-zero literal divisor `d`. -/
def JSVal.divLit (a : JSVal) (d : ℚ) : Except Abrupt Coord := do
  let x ← a.toNumber
  pure (numOp (fun p q => p / q) x (.num d))

/-- A text handed to the page; `uncomputed` stands for a text the embedding
does not compute. -/
inductive Text where
  | lit (s : String) : Text
  | uncomputed : Text

/-- Concatenation of texts. -/
def Text.append : Text → Text → Text
  | .lit a, .lit b => .lit (a ++ b)
  | _, _ => .uncomputed

/-- JavaScript `ToString` as used by a template literal.  Integers up to 2^53
in absolute value print in plain decimal; the digits of other numbers and the
joined text of an array are not computed. -/
def JSVal.toDisplayString (v : JSVal) : Except Abrupt Text :=
  match v with
  | .undefined => .ok (.lit "undefined")
  | .null => .ok (.lit "null")
  | .bool b => .ok (.lit (if b then "true" else "false"))
  | .num q =>
    if q.den = 1 ∧ q.num.natAbs ≤ 2 ^ 53 then .ok (.lit (toString q.num))
    else .ok .uncomputed
  | .nan => .ok (.lit "NaN")
  | .str s => .ok (.lit s)
  | .arr _ =>
    if v.conversionThrows then .error (.typeError "Cannot convert object to primitive value")
    else .ok .uncomputed
  | .obj _ =>
    if v.conversionThrows then .error (.typeError "Cannot convert object to primitive value")
    else .ok (.lit "[object Object]")
  | .builtin _ => .ok .uncomputed

/-! ## Constants of the map (lines 11-30) -/

def TILE_SIZE : Nat := 32
def MAP_W : Nat := 13
def MAP_H : Nat := 13

def TILE_EMPTY : Nat := 0
def TILE_BRICK : Nat := 1
def TILE_STEEL : Nat := 2
def TILE_WATER : Nat := 3
def TILE_GRASS : Nat := 4
def TILE_EAGLE : Nat := 5

/-- The `COLORS` table, keyed by the property names of the tile constants. -/
def COLORS : List (String × String) :=
  [(toString TILE_EMPTY, "#111"), (toString TILE_BRICK, "#b55239"),
   (toString TILE_STEEL, "#777"), (toString TILE_WATER, "#204b8f"),
   (toString TILE_GRASS, "#224422"), (toString TILE_EAGLE, "#daa520")]

/-! ## Session store (lines 32-52) -/

/-- The five flags of `lastInput`. -/
structure InputVector where
  up : Bool
  down : Bool
  left : Bool
  right : Bool
  fire : Bool
  deriving DecidableEq, Repr

/-- A message handed to `socket.emit`. -/
inductive Emit where
  | findMatch (mmr : Nat) : Emit
  | input (matchId role : JSVal) (input : InputVector) : Emit

/-- The Socket.IO handle: its id, the `connected` flag kept by the transport,
and the messages emitted through it so far, oldest first. -/
structure Socket where
  id : String
  connected : Bool
  sent : List Emit

/-- The object `serverState.players`. -/
structure Players where
  p1 : JSVal
  p2 : JSVal

/-- The object `serverState`. -/
structure ServerState where
  map : JSVal
  players : Players
  bullets : JSVal
  finished : JSVal
  winner : JSVal

/-- The module-level variables of the script, with the text of the status
element. -/
structure Store where
  socket : Option Socket
  jwtToken : JSVal
  authedUser : JSVal
  inMatch : Bool
  matchId : JSVal
  role : JSVal
  lastInput : InputVector
  serverState : ServerState
  status : Text

/-- The initial player record `{ x:0, y:0, dirX:0, dirY:0, lives:3, active:true }`. -/
def initialPlayer : JSVal :=
  .obj [("x", .num 0), ("y", .num 0), ("dirX", .num 0), ("dirY", .num 0),
        ("lives", .num 3), ("active", .bool true)]

/-- The values the variables are declared with (lines 33-52). -/
def Store.initial (status : String) : Store where
  socket := none
  jwtToken := .null
  authedUser := .null
  inMatch := false
  matchId := .null
  role := .null
  lastInput := ⟨false, false, false, false, false⟩
  serverState :=
    { map := .null
      players := ⟨initialPlayer, initialPlayer⟩
      bullets := .obj [("p1", .null), ("p2", .null)]
      finished := .bool false
      winner := .null }
  status := .lit status

/-- The function `setStatus` (lines 55-57). -/
def setStatus (s : Store) (text : Text) : Store :=
  { s with status := (Text.lit "Статус: ").append text }

/-- The function `connectSocket` up to the creation of the handle (lines
111-116); `sock` is the handle that `io` returns. -/
def connectSocket (s : Store) (sock : Socket) : Store :=
  if !s.jwtToken.truthy then s else { s with socket := some sock }

/-! ## Socket handlers (lines 118-152) -/

/-- How a handler ends: the store it leaves behind and, when it threw, the
abrupt completion.  Assignments made before a throw stay in the store. -/
structure Outcome where
  store : Store
  error : Option Abrupt

/-- Continue with the value of a read, or stop in store `s` with its error. -/
def tryRead (r : Except Abrupt JSVal) (s : Store) (k : JSVal → Outcome) : Outcome :=
  match r with
  | .ok v => k v
  | .error e => ⟨s, some e⟩

/-- The handler of `disconnect` (lines 122-128). -/
def onDisconnect (s : Store) : Store :=
  let s1 := setStatus s (.lit "соединение потеряно")
  { s1 with inMatch := false, matchId := .null, role := .null }

/-- The method `toLowerCase` on the letters A-Z; other characters are kept. -/
def toLowerCase (s : String) : String := ⟨s.data.map Char.toLower⟩

/-- The method `toUpperCase` on the letters a-z; other characters are kept. -/
def toUpperCase (s : String) : String := ⟨s.data.map Char.toUpper⟩

/-- The call `role.toUpperCase()`: a `TypeError` unless `role` is a string;
the upper-cased text is computed for ASCII strings. -/
def roleToUpperCase (role : JSVal) : Except Abrupt Text :=
  match role with
  | .str r =>
    if r.data.any (fun c => decide (128 ≤ c.toNat)) then .ok .uncomputed
    else .ok (.lit (toUpperCase r))
  | .undefined => .error (.typeError "Cannot read properties of undefined (reading toUpperCase)")
  | .null => .error (.typeError "Cannot read properties of null (reading toUpperCase)")
  | _ => .error (.typeError "role.toUpperCase is not a function")

/-- The handler of `match_start` (lines 130-137). -/
def onMatchStart (s : Store) (payload : JSVal) : Outcome :=
  tryRead (payload.getProp "matchId") s fun m =>
  let s1 := { s with matchId := m }
  tryRead (payload.getProp "youAre") s1 fun youAre =>
  match s1.socket with
  | none => ⟨s1, some (.typeError "Cannot read properties of null (reading id)")⟩
  | some sock =>
    tryRead (youAre.getProp sock.id) s1 fun r =>
    let s2 := { s1 with role := r }
    let s3 := { s2 with inMatch := true }
    let s4 := { s3 with serverState := { s3.serverState with finished := .bool false } }
    let s5 := { s4 with serverState := { s4.serverState with winner := .null } }
    match roleToUpperCase s5.role with
    | .error e => ⟨s5, some e⟩
    | .ok up => ⟨setStatus s5 ((Text.lit "матч найден, ты: ").append up), none⟩

/-- The handler of `state` (lines 139-147). -/
def onState (s : Store) (state : JSVal) : Outcome :=
  tryRead (state.getProp "map") s fun m =>
  let s1 := { s with serverState := { s.serverState with map := m } }
  tryRead (state.getProp "players") s1 fun pl1 =>
  tryRead (pl1.getProp "p1") s1 fun p1 =>
  let s2 := { s1 with serverState :=
    { s1.serverState with players := { s1.serverState.players with p1 := p1 } } }
  tryRead (state.getProp "players") s2 fun pl2 =>
  tryRead (pl2.getProp "p2") s2 fun p2 =>
  let s3 := { s2 with serverState :=
    { s2.serverState with players := { s2.serverState.players with p2 := p2 } } }
  tryRead (state.getProp "bullets") s3 fun b =>
  let s4 := { s3 with serverState := { s3.serverState with bullets := b } }
  tryRead (state.getProp "finished") s4 fun f =>
  let s5 := { s4 with serverState := { s4.serverState with finished := f } }
  tryRead (state.getProp "winner") s5 fun w =>
  ⟨{ s5 with serverState := { s5.serverState with winner := w } }, none⟩

/-- The handler of `match_end` (lines 149-152); its parameter is destructured
as `{ winner }`, which throws on `undefined` and `null`. -/
def onMatchEnd (s : Store) (payload : JSVal) : Outcome :=
  tryRead (payload.getProp "winner") s fun winner =>
  let s1 := { s with serverState := { s.serverState with finished := .bool true } }
  ⟨{ s1 with serverState := { s1.serverState with winner := winner } }, none⟩

/-! ## Keyboard input (lines 165-213) -/

/-- The function `sendInput` (lines 206-213). -/
def sendInput (s : Store) : Store :=
  match s.socket with
  | none => s
  | some sock =>
    if !sock.connected || !s.inMatch || !s.matchId.truthy || !s.role.truthy then s
    else
      let sock1 : Socket :=
        { sock with sent := sock.sent ++ [Emit.input s.matchId s.role s.lastInput] }
      { s with socket := some sock1 }

/-- The `keydown` listener (lines 166-184); `key` is `e.key`.  Lower-casing is
that of `toLowerCase`, which agrees with JavaScript on every string that
lower-cases to one of the compared names. -/
def keydown (s : Store) (key : String) : Store :=
  let key := toLowerCase key
  let r : Store × Bool :=
    if key = "w" ∨ key = "arrowup" then
      ({ s with lastInput := { s.lastInput with up := true } }, true)
    else if key = "s" ∨ key = "arrowdown" then
      ({ s with lastInput := { s.lastInput with down := true } }, true)
    else if key = "a" ∨ key = "arrowleft" then
      ({ s with lastInput := { s.lastInput with left := true } }, true)
    else if key = "d" ∨ key = "arrowright" then
      ({ s with lastInput := { s.lastInput with right := true } }, true)
    else if key = " " ∨ key = "space" then
      ({ s with lastInput := { s.lastInput with fire := true } }, true)
    else (s, false)
  if r.2 then sendInput r.1 else r.1

/-- The `keyup` listener (lines 186-204). -/
def keyup (s : Store) (key : String) : Store :=
  let key := toLowerCase key
  let r : Store × Bool :=
    if key = "w" ∨ key = "arrowup" then
      ({ s with lastInput := { s.lastInput with up := false } }, true)
    else if key = "s" ∨ key = "arrowdown" then
      ({ s with lastInput := { s.lastInput with down := false } }, true)
    else if key = "a" ∨ key = "arrowleft" then
      ({ s with lastInput := { s.lastInput with left := false } }, true)
    else if key = "d" ∨ key = "arrowright" then
      ({ s with lastInput := { s.lastInput with right := false } }, true)
    else if key = " " ∨ key = "space" then
      ({ s with lastInput := { s.lastInput with fire := false } }, true)
    else (s, false)
  if r.2 then sendInput r.1 else r.1

/-- A keyboard edge: the key and whether it went down (`true`) or up. -/
structure KeyEvent where
  key : String
  pressed : Bool
  deriving DecidableEq, Repr

/-- Dispatch of one keyboard edge to its listener. -/
def onKey (s : Store) (e : KeyEvent) : Store :=
  if e.pressed then keydown s e.key else keyup s e.key

/-- Replay of a sequence of keyboard edges, oldest first. -/
def replayKeys (s : Store) (es : List KeyEvent) : Store :=
  es.foldl onKey s

/-! ## Rendering (lines 215-320) -/

/-- The drawing surface: `canvas.width` and `canvas.height`. -/
structure Canvas where
  width : Nat
  height : Nat

/-- One step of a frame, in program order: the calls made on the 2D context,
the request for the next frame, and a marker for each evaluation of
`map[y][x]` that produced a value, with the indices used and the value read. -/
inductive Op where
  | clearRect (x y w h : Coord) : Op
  | setFillStyle (color : String) : Op
  | fillStyleIgnored (name : String) : Op
  | setStrokeStyle (color : String) : Op
  | setFont (font : String) : Op
  | fillRect (x y w h : Coord) : Op
  | strokeRect (x y w h : Coord) : Op
  | fillText (text : Text) (x y : Coord) : Op
  | readMap (y x : Nat) (value : JSVal) : Op
  | requestAnimationFrame : Op

/-- A natural number as a JavaScript number. -/
def natNum (n : Nat) : Coord := .num (n : ℚ)

/-- What `COLORS[tile] || '#111'` evaluates to: a colour text, or an inherited
member of `COLORS`, which the canvas ignores when it is assigned to
`fillStyle`. -/
inductive Paint where
  | color (c : String) : Paint
  | inherited (name : String) : Paint

/-- The value of `COLORS[key] || '#111'` for a property name. -/
def colorOfKey (key : String) : Paint :=
  match COLORS.lookup key with
  | some c => .color c
  | none => if key ∈ objectPrototypeKeys then .inherited key else .color "#111"

/-- The expression `COLORS[tile] || '#111'` (line 232): the tile is turned into
a property name and looked up in `COLORS`.  A number names a property of
`COLORS` only as one of the integers 0 to 5; an array names the property its
single element names, and none when it has more elements. -/
def tileColor : JSVal → Except Abrupt Paint
  | .num q =>
    if q.den = 1 ∧ 0 ≤ q.num ∧ q.num ≤ 5 then .ok (colorOfKey (toString q.num.toNat))
    else .ok (.color "#111")
  | .str s => .ok (colorOfKey s)
  | .undefined => .ok (.color "#111")
  | .null => .ok (.color "#111")
  | .bool _ => .ok (.color "#111")
  | .nan => .ok (.color "#111")
  | .builtin _ => .ok (.color "#111")
  | .obj fields =>
    if (JSVal.obj fields).conversionThrows then
      .error (.typeError "Cannot convert object to primitive value")
    else .ok (.color "#111")
  | .arr items =>
    if conversionThrowsAny items then
      .error (.typeError "Cannot convert object to primitive value")
    else
      match items with
      | [.undefined] => .ok (.color "#111")
      | [.null] => .ok (.color "#111")
      | [e] => tileColor e
      | _ => .ok (.color "#111")

/-- The assignment `ctx.fillStyle = COLORS[tile] || '#111'`. -/
def Paint.assign : Paint → Op
  | .color c => .setFillStyle c
  | .inherited name => .fillStyleIgnored name

/-- The body of the inner loop of `drawMap` for the cell in row `y`, column `x`
(lines 229-241). -/
def drawCell (map : JSVal) (y x : Nat) : Except Abrupt (List Op) := do
  let row ← map.getIndex y
  let tile ← row.getIndex x
  let px := x * TILE_SIZE
  let py := y * TILE_SIZE
  let paint ← tileColor tile
  let base : List Op :=
    [.readMap y x tile,
     paint.assign,
     .fillRect (natNum px) (natNum py) (natNum TILE_SIZE) (natNum TILE_SIZE),
     .setStrokeStyle "#222",
     .strokeRect (natNum px) (natNum py) (natNum TILE_SIZE) (natNum TILE_SIZE)]
  if tile.strictEqNum TILE_EAGLE then
    pure (base ++
      [.setFillStyle "#fff", .setFont "20px monospace",
       .fillText (.lit "^") (natNum (px + 10)) (natNum (py + 24))])
  else pure base

/-- The inner loop of `drawMap` for row `y` (line 228). -/
def drawRow (map : JSVal) (y : Nat) : Except Abrupt (List Op) := do
  let cells ← (List.range MAP_W).mapM (fun x => drawCell map y x)
  pure cells.flatten

/-- The function `drawMap` (lines 216-244). -/
def drawMap (cv : Canvas) (s : Store) : Except Abrupt (List Op) :=
  let map := s.serverState.map
  if !map.truthy then
    .ok [.setFillStyle "#000",
         .fillRect (natNum 0) (natNum 0) (natNum cv.width) (natNum cv.height),
         .setFillStyle "#fff",
         .setFont "16px monospace",
         .fillText (.lit "Ожидание матча...") (natNum 90) (natNum 200)]
  else do
    let rows ← (List.range MAP_H).mapM (fun y => drawRow map y)
    pure rows.flatten

/-- The function `drawTank` (lines 246-269), with `size = 24`, `half = 12`,
`barrelLength = 16` and `barrelWidth = 6`. -/
def drawTank (p : JSVal) (color : String) : Except Abrupt (List Op) :=
  if !p.truthy then .ok []
  else do
    let active ← p.getProp "active"
    if !active.truthy then pure []
    else
      let x ← p.getProp "x"
      let y ← p.getProp "y"
      let bodyX ← x.sub (.num 12)
      let bodyY ← y.sub (.num 12)
      let body : List Op :=
        [.setFillStyle color, .fillRect bodyX bodyY (.num 24) (.num 24), .setFillStyle "#ddd"]
      let dirX ← p.getProp "dirX"
      let dirY ← p.getProp "dirY"
      if dirX.strictEqNum 0 && dirY.strictEqNum (-1) then
        let bx ← x.sub (.num 3)
        let by1 ← y.sub (.num 12)
        let by2 := numOp (fun a b => a - b) by1 (.num 16)
        pure (body ++ [.fillRect bx by2 (.num 6) (.num 16)])
      else if dirX.strictEqNum 0 && dirY.strictEqNum 1 then
        let bx ← x.sub (.num 3)
        let by1 ← y.add 12
        pure (body ++ [.fillRect bx by1 (.num 6) (.num 16)])
      else if dirX.strictEqNum (-1) && dirY.strictEqNum 0 then
        let bx1 ← x.sub (.num 12)
        let bx2 := numOp (fun a b => a - b) bx1 (.num 16)
        let by1 ← y.sub (.num 3)
        pure (body ++ [.fillRect bx2 by1 (.num 16) (.num 6)])
      else if dirX.strictEqNum 1 && dirY.strictEqNum 0 then
        let bx ← x.add 12
        let by1 ← y.sub (.num 3)
        pure (body ++ [.fillRect bx by1 (.num 16) (.num 6)])
      else pure body

/-- The block drawing one bullet `b` (lines 276-279 and 280-283). -/
def drawBullet (b : JSVal) : Except Abrupt (List Op) :=
  if b.truthy then do
    let size ← b.getProp "size"
    let s := if size.truthy then size else .num 6
    let bx ← b.getProp "x"
    let h1 ← s.divLit 2
    let left ← bx.sub h1
    let by1 ← b.getProp "y"
    let h2 ← s.divLit 2
    let top ← by1.sub h2
    let side ← s.toNumber
    pure [.fillRect left top side side]
  else .ok []

/-- The function `drawBullets` (lines 271-284). -/
def drawBullets (s : Store) : Except Abrupt (List Op) := do
  let b1 ← s.serverState.bullets.getProp "p1"
  let b2 ← s.serverState.bullets.getProp "p2"
  let r1 ← drawBullet b1
  let r2 ← drawBullet b2
  pure ([.setFillStyle "#ffeb3b"] ++ r1 ++ r2)

/-- The template literal of one HUD column (lines 295 and 296). -/
def hudText (label : String) (p : JSVal) : Except Abrupt Text := do
  let lives ← p.getProp "lives"
  let shown ← lives.toDisplayString
  let active ← p.getProp "active"
  pure (((Text.lit (label ++ ": ")).append shown).append
    (.lit ("L " ++ (if active.truthy then "" else "(OUT)"))))

/-- The function `drawHUD` (lines 286-310). -/
def drawHUD (cv : Canvas) (s : Store) : Except Abrupt (List Op) := do
  let head : List Op :=
    [.setFillStyle "#000",
     .fillRect (natNum 0) (natNum 0) (natNum cv.width) (natNum 24),
     .setFillStyle "#fff",
     .setFont "13px monospace"]
  let p1 := s.serverState.players.p1
  let p2 := s.serverState.players.p2
  let t1 ← hudText "P1" p1
  let t2 ← hudText "P2" p2
  let texts : List Op :=
    [.fillText t1 (natNum 8) (natNum 16), .fillText t2 (natNum 210) (natNum 16)]
  if s.serverState.finished.truthy then
    let text :=
      if s.serverState.winner.strictEqStr "p1" then "Победил Игрок 1"
      else if s.serverState.winner.strictEqStr "p2" then "Победил Игрок 2"
      else "Конец матча"
    pure (head ++ texts ++
      [.setFillStyle "rgba(0,0,0,0.6)",
       .fillRect (natNum 0) (natNum 0) (natNum cv.width) (natNum cv.height),
       .setFillStyle "#fff",
       .setFont "28px sans-serif",
       .fillText (.lit text) (natNum 90) (natNum 210)])
  else pure (head ++ texts)

/-- One run of the function `loop` (lines 312-320): the steps of the frame,
ending with the request for the next frame, or the exception that stopped it.
A frame that throws never reaches `requestAnimationFrame`. -/
def loop (cv : Canvas) (s : Store) : Except Abrupt (List Op) := do
  let clear : List Op :=
    [.clearRect (natNum 0) (natNum 0) (natNum cv.width) (natNum cv.height)]
  let m ← drawMap cv s
  let t1 ← drawTank s.serverState.players.p1 "#4caf50"
  let t2 ← drawTank s.serverState.players.p2 "#ff9800"
  let b ← drawBullets s
  let h ← drawHUD cv s
  pure (clear ++ m ++ t1 ++ t2 ++ b ++ h ++ [.requestAnimationFrame])

/-! ## Vocabulary of the specification -/

/-- The content of a world update: the six parts a well-formed `state` payload
carries. -/
structure WorldUpdate where
  map : JSVal
  p1 : JSVal
  p2 : JSVal
  bullets : JSVal
  finished : JSVal
  winner : JSVal

/-- The payload `v` is a well-formed world update with content `u`: it has
`map`, `players.p1`, `players.p2`, `bullets`, `finished` and `winner`. -/
def Carries (v : JSVal) (u : WorldUpdate) : Prop :=
  v.getProp "map" = .ok u.map ∧
  (∃ pl, v.getProp "players" = .ok pl ∧
    pl.getProp "p1" = .ok u.p1 ∧ pl.getProp "p2" = .ok u.p2) ∧
  v.getProp "bullets" = .ok u.bullets ∧
  v.getProp "finished" = .ok u.finished ∧
  v.getProp "winner" = .ok u.winner

/-- The snapshot that consists of exactly the content of `u`. -/
def WorldUpdate.snapshot (u : WorldUpdate) : ServerState :=
  { map := u.map, players := ⟨u.p1, u.p2⟩, bullets := u.bullets,
    finished := u.finished, winner := u.winner }

/-- The five semantic flags of the input vector. -/
inductive Flag where
  | up | down | left | right | fire
  deriving DecidableEq, Repr

/-- The key table as the specification words it, on lower-cased key names:
w/arrowup, s/arrowdown, a/arrowleft, d/arrowright and ' '/space. -/
def specKeyFlag (k : String) : Option Flag :=
  if k = "w" ∨ k = "arrowup" then some .up
  else if k = "s" ∨ k = "arrowdown" then some .down
  else if k = "a" ∨ k = "arrowleft" then some .left
  else if k = "d" ∨ k = "arrowright" then some .right
  else if k = " " ∨ k = "space" then some .fire
  else none

/-- The flag an event maps to, its key compared case-insensitively. -/
def KeyEvent.flag (e : KeyEvent) : Option Flag := specKeyFlag (toLowerCase e.key)

/-- Reading one flag of an input vector. -/
def InputVector.get (v : InputVector) : Flag → Bool
  | .up => v.up
  | .down => v.down
  | .left => v.left
  | .right => v.right
  | .fire => v.fire

/-- Writing one flag of an input vector. -/
def InputVector.set (v : InputVector) (f : Flag) (b : Bool) : InputVector :=
  match f with
  | .up => { v with up := b }
  | .down => { v with down := b }
  | .left => { v with left := b }
  | .right => { v with right := b }
  | .fire => { v with fire := b }

/-- The value the specification expects of flag `f` after the events `es`: the
pressed value of the last event whose key maps to `f`, and false if there is
none. -/
def specFlagAfter (f : Flag) (es : List KeyEvent) : Bool :=
  ((es.reverse.find? (fun e => decide (e.flag = some f))).map (fun e => e.pressed)).getD false

/-- The all-false input vector. -/
def InputVector.released : InputVector := ⟨false, false, false, false, false⟩

/-- A sample world update in which p1 has a bullet in flight. -/
def sampleUpdateA : JSVal :=
  .obj [("map", .null), ("players", .obj [("p1", initialPlayer), ("p2", initialPlayer)]),
        ("bullets", .obj [("p1", .obj [("x", .num 5), ("y", .num 7), ("size", .num 6)]),
                          ("p2", .null)]),
        ("finished", .bool false), ("winner", .null)]

/-- A sample world update without bullets, in which p2 has won. -/
def sampleUpdateB : JSVal :=
  .obj [("map", .null), ("players", .obj [("p1", initialPlayer), ("p2", initialPlayer)]),
        ("bullets", .obj [("p1", .null), ("p2", .null)]),
        ("finished", .bool true), ("winner", .str "p2")]

/-- A store in the middle of a match: connected, role p2 in match `m1`, p1 with
a bullet in flight. -/
def sampleInMatch : Store where
  socket := some ⟨"sid", true, []⟩
  jwtToken := .str "token"
  authedUser := .obj [("tid", .num 1)]
  inMatch := true
  matchId := .str "m1"
  role := .str "p2"
  lastInput := ⟨false, false, false, false, false⟩
  serverState :=
    { map := .null
      players := ⟨initialPlayer, initialPlayer⟩
      bullets := .obj [("p1", .obj [("x", .num 5), ("y", .num 7), ("size", .num 6)]),
                       ("p2", .null)]
      finished := .bool false
      winner := .null }
  status := .lit "Статус: матч найден, ты: P2"

/-- The effect of one keyboard edge on the input vector. -/
def applyEdge (v : InputVector) (e : KeyEvent) : InputVector :=
  match e.flag with
  | some f => v.set f e.pressed
  | none => v

/-- What the `state` and `match_end` handlers never write. -/
def outsideSnapshot (s : Store) :
    Option Socket × JSVal × JSVal × Bool × JSVal × JSVal × InputVector × Text :=
  (s.socket, s.jwtToken, s.authedUser, s.inMatch, s.matchId, s.role, s.lastInput, s.status)

/-- The events that drive the store: the four socket events with their
payloads, and keyboard edges. -/
inductive Event where
  | matchStart (payload : JSVal) : Event
  | state (payload : JSVal) : Event
  | matchEnd (payload : JSVal) : Event
  | disconnect : Event
  | key (e : KeyEvent) : Event

/-- The store after one event: the store the handler of the event leaves behind,
with the assignments made before a throw when it throws. -/
def step (s : Store) : Event → Store
  | .matchStart p => (onMatchStart s p).store
  | .state p => (onState s p).store
  | .matchEnd p => (onMatchEnd s p).store
  | .disconnect => onDisconnect s
  | .key e => onKey s e

/-- The store after a sequence of events, oldest first. -/
def run (s : Store) (evs : List Event) : Store := evs.foldl step s

/-- Events other than `disconnect` and `match_start`. -/
def Event.keepsMembership : Event → Bool
  | .matchStart _ => false
  | .disconnect => false
  | _ => true

/-- A store right after authentication and connection, before any match. -/
def sampleConnected : Store :=
  { Store.initial "" with socket := some ⟨"sid", true, []⟩, jwtToken := .str "token" }

/-- The store `t` holds the membership of match `m` in role `r` on a connected
socket. -/
def Tagged (m r : JSVal) (t : Store) : Prop :=
  t.inMatch = true ∧ t.matchId = m ∧ t.role = r ∧
    ∃ sock, t.socket = some sock ∧ sock.connected = true

/-- The payload of the scenario: match `m1`, this connection playing p2. -/
def sampleMatchFound : JSVal :=
  .obj [("matchId", .str "m1"), ("youAre", .obj [("other", .str "p1"), ("sid", .str "p2")])]

/-- A match-found payload whose match id is the empty string. -/
def emptyIdMatchFound : JSVal :=
  .obj [("matchId", .str ""), ("youAre", .obj [("sid", .str "p1"), ("other", .str "p2")])]

/-- The map value of a grid of tile codes, row by row. -/
def gridMap (g : List (List ℚ)) : JSVal :=
  .arr (g.map fun row => .arr (row.map .num))

/-- The grid `g` has `MAP_H` rows of `MAP_W` cells each. -/
def FullGrid (g : List (List ℚ)) : Prop :=
  g.length = MAP_H ∧ ∀ row ∈ g, row.length = MAP_W

/-- The cell a step reads and the value it finds there, if the step is a read
of the map. -/
def Op.readCell : Op → Option (Nat × Nat × JSVal)
  | .readMap y x v => some (y, x, v)
  | _ => none

/-- The cells `(y, x)` with `y < MAP_H` and `x < MAP_W`, row by row. -/
def allCells : List (Nat × Nat) :=
  ((List.range MAP_H).map fun y => (List.range MAP_W).map fun x => (y, x)).flatten

/-- The steps of the placeholder path of `drawMap`. -/
def placeholderOps (cv : Canvas) : List Op :=
  [.setFillStyle "#000",
   .fillRect (natNum 0) (natNum 0) (natNum cv.width) (natNum cv.height),
   .setFillStyle "#fff",
   .setFont "16px monospace",
   .fillText (.lit "Ожидание матча...") (natNum 90) (natNum 200)]

/-- A grid of 13 rows of 13 empty tiles, with the eagle in the last row. -/
def sampleGrid : List (List ℚ) :=
  List.replicate 12 (List.replicate 13 0) ++
    [[0, 0, 0, 0, 0, 1, 5, 1, 0, 0, 0, 0, 0]]

/-- The value `b` is a bullet record with position `(x, y)` and size `size`. -/
def IsBullet (b : JSVal) (x y size : ℚ) : Prop :=
  b.truthy = true ∧ b.getProp "x" = .ok (.num x) ∧ b.getProp "y" = .ok (.num y) ∧
    b.getProp "size" = .ok (.num size)

/-- The side of the square drawn for a bullet of the given size: the size
itself, and 6 when the size is 0. -/
def bulletSide (size : ℚ) : ℚ := if size = 0 then 6 else size

/-- A store whose snapshot has both bullets in flight, the one of p1 with
size 0. -/
def sampleZeroSize : Store :=
  { sampleInMatch with
    serverState :=
      { sampleInMatch.serverState with
        bullets := .obj [("p1", .obj [("x", .num 5), ("y", .num 7), ("size", .num 0)]),
                         ("p2", .obj [("x", .num 40), ("y", .num 50), ("size", .num 4)])] } }

/-- A store whose snapshot has both bullets in flight, of sizes 6 and 4. -/
def sampleTwoBullets : Store :=
  { sampleInMatch with
    serverState :=
      { sampleInMatch.serverState with
        bullets := .obj [("p1", .obj [("x", .num 5), ("y", .num 7), ("size", .num 6)]),
                         ("p2", .obj [("x", .num 40), ("y", .num 50), ("size", .num 4)])] } }

/-- A store whose map is `sampleGrid`. -/
def sampleWithMap : Store :=
  { sampleInMatch with
    serverState := { sampleInMatch.serverState with map := gridMap sampleGrid } }

/-- A world update whose `players.p1` slot is null. -/
def nullPlayerUpdate : JSVal :=
  .obj [("map", .null), ("players", .obj [("p1", .null), ("p2", initialPlayer)]),
        ("bullets", .obj [("p1", .null), ("p2", .null)]),
        ("finished", .bool false), ("winner", .null)]

/-- A world update whose map has a single row of three cells. -/
def shortMapUpdate : JSVal :=
  .obj [("map", .arr [.arr [.num 0, .num 1, .num 0]]),
        ("players", .obj [("p1", initialPlayer), ("p2", initialPlayer)]),
        ("bullets", .obj [("p1", .null), ("p2", .null)]),
        ("finished", .bool false), ("winner", .null)]

/-- A world update without a `bullets` record. -/
def noBulletsUpdate : JSVal :=
  .obj [("map", .null), ("players", .obj [("p1", initialPlayer), ("p2", initialPlayer)]),
        ("finished", .bool false), ("winner", .null)]

/-- The frame `r` stopped with a `TypeError`. -/
def ThrowsTypeError {α : Type} (r : Except Abrupt α) : Prop :=
  ∃ what, r = .error (.typeError what)

/-- The value is null or empty in the words of the specification: `null`,
`undefined` or the empty string. -/
def NullOrEmpty (v : JSVal) : Prop :=
  v = .null ∨ v = .undefined ∨ v = .str ""

/-- A connected store in a match whose match id is the number 0. -/
def sampleZeroMatchId : Store :=
  { sampleInMatch with matchId := .num 0 }

/-- The tile code of the grid at row `y`, column `x`. -/
def tileAt (g : List (List ℚ)) (y x : Nat) : ℚ := (g.getD y []).getD x 0

/-- The colour of a tile code in the palette of the script: brick, steel,
water, grass and eagle have their own colour, every other code is drawn as
empty. -/
def expectedTileColor (t : ℚ) : String :=
  if t = 1 then "#b55239"
  else if t = 2 then "#777"
  else if t = 3 then "#204b8f"
  else if t = 4 then "#224422"
  else if t = 5 then "#daa520"
  else "#111"

/-- The steps expected for the cell in row `y`, column `x` holding tile `t`: the
read of that cell, the filled and stroked tile rectangle, and the glyph on the
eagle. -/
def expectedCellOps (t : ℚ) (y x : Nat) : List Op :=
  [.readMap y x (.num t),
   .setFillStyle (expectedTileColor t),
   .fillRect (natNum (x * 32)) (natNum (y * 32)) (natNum 32) (natNum 32),
   .setStrokeStyle "#222",
   .strokeRect (natNum (x * 32)) (natNum (y * 32)) (natNum 32) (natNum 32)] ++
  (if t = 5 then
    [.setFillStyle "#fff", .setFont "20px monospace",
     .fillText (.lit "^") (natNum (x * 32 + 10)) (natNum (y * 32 + 24))]
   else [])

/-- The steps expected for a full grid: its cells row by row. -/
def expectedGridOps (g : List (List ℚ)) : List Op :=
  ((List.range 13).map fun y =>
    ((List.range 13).map fun x => expectedCellOps (tileAt g y x) y x).flatten).flatten

/-- The reads expected for a full grid: every cell once, row by row, with the
tile code found there. -/
def expectedReads (g : List (List ℚ)) : List (Nat × Nat × JSVal) :=
  ((List.range 13).map fun y =>
    (List.range 13).map fun x => (y, x, JSVal.num (tileAt g y x))).flatten

/-- The value is present: neither `null` nor `undefined`. -/
def JSVal.present : JSVal → Bool
  | .undefined => false
  | .null => false
  | _ => true

/-- The property `key` of a present value, `undefined` when the read fails. -/
def JSVal.field (v : JSVal) (key : String) : JSVal :=
  match v.getProp key with
  | .ok w => w
  | .error _ => .undefined

/-- The value converts to a number and to a text without an exception. -/
def JSVal.converts (v : JSVal) : Bool := !v.conversionThrows

/-- The row is present and each of its first 13 cells, absent ones included,
converts to a property name. -/
def rowSafe (row : JSVal) : Bool :=
  row.present && (List.range 13).all fun x =>
    match row.getIndex x with
    | .ok tile => tile.converts
    | .error _ => false

/-- The map is falsy, or its first 13 rows are safe. -/
def mapSafe (m : JSVal) : Bool :=
  !m.truthy || (List.range 13).all fun y =>
    match m.getIndex y with
    | .ok row => rowSafe row
    | .error _ => false

/-- The player slot is present, its `lives` converts to a text and, when the
player is drawn (slot and `active` truthy), its `x` and `y` convert to
numbers. -/
def slotSafe (p : JSVal) : Bool :=
  p.present && (p.field "lives").converts &&
    (!(p.truthy && (p.field "active").truthy) ||
      ((p.field "x").converts && (p.field "y").converts))

/-- The bullet slot is falsy, or its `size`, `x` and `y` convert to numbers. -/
def bulletSafe (b : JSVal) : Bool :=
  !b.truthy || ((b.field "size").converts && (b.field "x").converts && (b.field "y").converts)

/-- The bullets record is present and both of its slots are safe. -/
def bulletsSafe (bl : JSVal) : Bool :=
  bl.present && bulletSafe (bl.field "p1") && bulletSafe (bl.field "p2")

/-- What the renderer reads of the snapshot besides `finished` and `winner`. -/
def renderPart (s : Store) : JSVal × Players × JSVal :=
  (s.serverState.map, s.serverState.players, s.serverState.bullets)

/-- The snapshot can be drawn: the map is falsy or has its first 13 rows, both
player slots and the bullets record are present, and no value that the frame
converts to a number or a text is an object with an own `toString` or an array
holding one. -/
def FrameSafe (r : JSVal × Players × JSVal) : Prop :=
  mapSafe r.1 = true ∧ slotSafe r.2.1.p1 = true ∧ slotSafe r.2.1.p2 = true ∧
    bulletsSafe r.2.2 = true

/-- Every `state` event carries a world update that can be drawn; the other
events are unconstrained. -/
def Event.KeepsFrameSafe : Event → Prop
  | .state p => ∃ u, Carries p u ∧ FrameSafe (u.map, ⟨u.p1, u.p2⟩, u.bullets)
  | _ => True

/-- A world update with 13 rows of which every first cell is an object that
has an own `toString`. -/
def exoticTileUpdate : JSVal :=
  .obj [("map", .arr (List.replicate 13 (.arr [.obj [("toString", .num 0)]]))),
        ("players", .obj [("p1", initialPlayer), ("p2", initialPlayer)]),
        ("bullets", .obj [("p1", .null), ("p2", .null)]),
        ("finished", .bool false), ("winner", .null)]

/-- A world update off the expected shape that can still be drawn: 13 rows of
3 columns with text tiles among them, an empty player record, a player given
as a text, and a bullet without a size. -/
def oddUpdate : JSVal :=
  .obj [("map", .arr (List.replicate 13 (.arr [.num 1, .str "5", .arr [.num 2]]))),
        ("players", .obj [("p1", .obj []), ("p2", .str "gone")]),
        ("bullets", .obj [("p1", .obj [("x", .num 5), ("y", .str "7")]), ("p2", .bool false)]),
        ("finished", .str "yes"), ("winner", .num 7)]

/-- A session on a connected socket: a match is found, the odd world update
arrives, `match_end` comes with a text as payload, and the connection is
lost. -/
def oddSession : List Event :=
  [.matchStart sampleMatchFound, .state oddUpdate, .matchEnd (.str "x"), .disconnect,
   .key ⟨"w", true⟩]

/-! ## Theorems -/

/-- A well-formed world update installs exactly its own content. -/
theorem onState_of_carries (s : Store) (v : JSVal) (u : WorldUpdate) (h : Carries v u) :
    onState s v = ⟨{ s with serverState := u.snapshot }, none⟩ := by
  obtain ⟨hm, ⟨pl, hpl, hp1, hp2⟩, hb, hf, hw⟩ := h
  simp [onState, tryRead, hm, hpl, hp1, hp2, hb, hf, hw, WorldUpdate.snapshot]

/-- C1: for every store and every two well-formed world updates A and B, the
`state` handler applied to A and then to B completes normally and leaves
`serverState` with map, players.p1, players.p2, bullets, finished and winner
equal to those of B; the outcome is the one of applying B alone, and a bullet
of A that B reports as absent is absent afterwards. -/
theorem state_update_replaces_snapshot (s : Store) (a b : JSVal) (A B : WorldUpdate)
    (ha : Carries a A) (hb : Carries b B) :
    (onState (onState s a).store b).error = none ∧
    (onState (onState s a).store b).store.serverState.map = B.map ∧
    (onState (onState s a).store b).store.serverState.players.p1 = B.p1 ∧
    (onState (onState s a).store b).store.serverState.players.p2 = B.p2 ∧
    (onState (onState s a).store b).store.serverState.bullets = B.bullets ∧
    (onState (onState s a).store b).store.serverState.finished = B.finished ∧
    (onState (onState s a).store b).store.serverState.winner = B.winner ∧
    onState (onState s a).store b = onState s b ∧
    (B.bullets.getProp "p1" = .ok .null →
      (onState (onState s a).store b).store.serverState.bullets.getProp "p1" = .ok .null) := by
  rw [onState_of_carries s a A ha, onState_of_carries _ b B hb, onState_of_carries s b B hb]
  simp [WorldUpdate.snapshot]

/-- C1, at an instance: update A carries a bullet for p1, update B carries none;
after A and then B the bullet is absent and the snapshot is the one of B. -/
theorem state_update_replaces_snapshot_witness :
    (onState (onState (Store.initial "") sampleUpdateA).store sampleUpdateB).store.serverState.bullets.getProp "p1"
      = .ok .null ∧
    onState (onState (Store.initial "") sampleUpdateA).store sampleUpdateB
      = onState (Store.initial "") sampleUpdateB :=
  have h := state_update_replaces_snapshot (Store.initial "") sampleUpdateA sampleUpdateB
    ⟨.null, initialPlayer, initialPlayer,
      .obj [("p1", .obj [("x", .num 5), ("y", .num 7), ("size", .num 6)]), ("p2", .null)],
      .bool false, .null⟩
    ⟨.null, initialPlayer, initialPlayer, .obj [("p1", .null), ("p2", .null)],
      .bool true, .str "p2"⟩
    ⟨rfl, ⟨.obj [("p1", initialPlayer), ("p2", initialPlayer)], rfl, rfl, rfl⟩, rfl, rfl, rfl⟩
    ⟨rfl, ⟨.obj [("p1", initialPlayer), ("p2", initialPlayer)], rfl, rfl, rfl⟩, rfl, rfl, rfl⟩
  ⟨h.2.2.2.2.2.2.2.2 rfl, h.2.2.2.2.2.2.2.1⟩

/-- C2: for every store and every payload object whose `winner` is `w`, the
`match_end` handler completes normally, sets `serverState.finished` to true
and `serverState.winner` to `w`, and changes nothing else: map, players and
bullets stay as the last world update left them and the match membership
(inMatch, matchId, role) is not cleared. -/
theorem match_end_marks_outcome_only (s : Store) (fields : List (String × JSVal)) (w : JSVal)
    (hw : (JSVal.obj fields).getProp "winner" = .ok w) :
    (onMatchEnd s (.obj fields)).error = none ∧
    (onMatchEnd s (.obj fields)).store.serverState.finished = .bool true ∧
    (onMatchEnd s (.obj fields)).store.serverState.winner = w ∧
    (onMatchEnd s (.obj fields)).store.serverState.map = s.serverState.map ∧
    (onMatchEnd s (.obj fields)).store.serverState.players = s.serverState.players ∧
    (onMatchEnd s (.obj fields)).store.serverState.bullets = s.serverState.bullets ∧
    (onMatchEnd s (.obj fields)).store.inMatch = s.inMatch ∧
    (onMatchEnd s (.obj fields)).store.matchId = s.matchId ∧
    (onMatchEnd s (.obj fields)).store.role = s.role ∧
    (onMatchEnd s (.obj fields)).store =
      { s with serverState := { s.serverState with finished := .bool true, winner := w } } := by
  simp [onMatchEnd, tryRead, hw]

/-- C2, at an instance: `match_end` with winner p1 in the middle of a match. -/
theorem match_end_marks_outcome_only_witness :
    (onMatchEnd sampleInMatch (.obj [("winner", .str "p1")])).store.serverState.finished
        = .bool true ∧
    (onMatchEnd sampleInMatch (.obj [("winner", .str "p1")])).store.serverState.winner
        = .str "p1" ∧
    (onMatchEnd sampleInMatch (.obj [("winner", .str "p1")])).store.inMatch = true ∧
    (onMatchEnd sampleInMatch (.obj [("winner", .str "p1")])).store.matchId = .str "m1" ∧
    (onMatchEnd sampleInMatch (.obj [("winner", .str "p1")])).store.role = .str "p2" :=
  have h := match_end_marks_outcome_only sampleInMatch [("winner", .str "p1")] (.str "p1") rfl
  ⟨h.2.1, h.2.2.1, h.2.2.2.2.2.2.1, h.2.2.2.2.2.2.2.1, h.2.2.2.2.2.2.2.2.1⟩

/-- C3, as stated, fails: the `disconnect` handler run on a store whose socket
is connected leaves the socket handle as it was, its `connected` flag still
true; the handler does not mark the connection. -/
theorem disconnect_handler_leaves_connection_flag :
    sampleInMatch.socket = some ⟨"sid", true, []⟩ ∧
    (onDisconnect sampleInMatch).socket = some ⟨"sid", true, []⟩ ∧
    (onDisconnect sampleInMatch).inMatch = false := by
  refine ⟨rfl, rfl, rfl⟩

/-- C3, amended: for every store, the `disconnect` handler sets inMatch to
false and matchId and role to null and writes the lost-connection text to the
status line, while the token (jwtToken), the user descriptor (authedUser), the
last snapshot (serverState), the input vector and the socket handle with its
`connected` flag stay as they were; after it `sendInput` emits nothing. -/
theorem disconnect_clears_membership_only (s : Store) :
    (onDisconnect s).inMatch = false ∧
    (onDisconnect s).matchId = .null ∧
    (onDisconnect s).role = .null ∧
    (onDisconnect s).status = .lit "Статус: соединение потеряно" ∧
    (onDisconnect s).jwtToken = s.jwtToken ∧
    (onDisconnect s).authedUser = s.authedUser ∧
    (onDisconnect s).serverState = s.serverState ∧
    (onDisconnect s).lastInput = s.lastInput ∧
    (onDisconnect s).socket = s.socket ∧
    sendInput (onDisconnect s) = onDisconnect s := by
  refine ⟨rfl, rfl, rfl, rfl, rfl, rfl, rfl, rfl, rfl, ?_⟩
  unfold sendInput
  cases h : (onDisconnect s).socket with
  | none => rfl
  | some sock => simp [onDisconnect, setStatus]

/-- C6, as stated, fails: in a store that is connected and in a match, with the
number 0 as match id - neither null nor empty - and role p2, `sendInput` emits
nothing. -/
theorem zero_match_id_suppresses_input :
    sampleZeroMatchId.socket = some ⟨"sid", true, []⟩ ∧
    sampleZeroMatchId.inMatch = true ∧
    ¬ NullOrEmpty sampleZeroMatchId.matchId ∧
    ¬ NullOrEmpty sampleZeroMatchId.role ∧
    sendInput sampleZeroMatchId = sampleZeroMatchId := by
  refine ⟨rfl, rfl, ?_, ?_, rfl⟩
  · intro h
    rcases h with h | h | h <;> cases h
  · intro h
    rcases h with h | h | h
    · cases h
    · cases h
    · exact absurd (congrArg JSVal.truthy h) (by decide)

/-- C6, amended: for every store, `sendInput` returns the store unchanged, so
nothing is emitted and nothing is kept for later, as soon as the socket is
absent or not connected, or inMatch is false, or matchId is falsy (null,
undefined, the empty string, 0, NaN or false), or role is falsy; in every
other store it appends exactly one `input` message, with the stored matchId,
role and input vector, and changes nothing else. -/
theorem sendInput_guarded (s : Store) :
    ((s.socket = none ∨ (∃ sock, s.socket = some sock ∧ sock.connected = false) ∨
        s.inMatch = false ∨ s.matchId.truthy = false ∨ s.role.truthy = false) →
      sendInput s = s) ∧
    (∀ sock, s.socket = some sock → sock.connected = true → s.inMatch = true →
        s.matchId.truthy = true → s.role.truthy = true →
      sendInput s = { s with socket := (some
        { sock with sent := sock.sent ++ [Emit.input s.matchId s.role s.lastInput] }) }) ∧
    JSVal.null.truthy = false ∧ JSVal.undefined.truthy = false ∧
    (JSVal.str "").truthy = false ∧ (JSVal.num 0).truthy = false ∧
    JSVal.nan.truthy = false ∧ (JSVal.bool false).truthy = false := by
  refine ⟨?_, ?_, rfl, rfl, rfl, by decide, rfl, rfl⟩
  · intro h
    unfold sendInput
    cases hs : s.socket with
    | none => rfl
    | some sock =>
      rcases h with h | ⟨k, hk, hc⟩ | h | h | h
      · simp [hs] at h
      · rw [hs] at hk
        cases hk
        simp [hc]
      · simp [h]
      · simp [h]
      · simp [h]
  · intro sock hs hc hi hm hr
    simp [sendInput, hs, hc, hi, hm, hr]

/-- C6 amended, at instances: in the middle of a match one message goes out; after the
membership is gone the call does nothing. -/
theorem sendInput_guarded_witness :
    sendInput sampleInMatch = { sampleInMatch with socket := (some
      ⟨"sid", true, [Emit.input (.str "m1") (.str "p2") ⟨false, false, false, false, false⟩]⟩) } ∧
    sendInput { sampleInMatch with inMatch := false } = { sampleInMatch with inMatch := false } :=
  ⟨(sendInput_guarded sampleInMatch).2.1 ⟨"sid", true, []⟩ rfl rfl rfl rfl rfl,
   (sendInput_guarded { sampleInMatch with inMatch := false }).1 (Or.inr (Or.inr (Or.inl rfl)))⟩

/-! ### Input tracker -/

theorem sendInput_lastInput (s : Store) : (sendInput s).lastInput = s.lastInput := by
  unfold sendInput
  cases s.socket with
  | none => rfl
  | some sock =>
    dsimp only
    split <;> rfl

theorem keydown_lastInput (s : Store) (k : String) :
    (keydown s k).lastInput = applyEdge s.lastInput ⟨k, true⟩ := by
  simp only [keydown, applyEdge, KeyEvent.flag, specKeyFlag]
  split_ifs <;> simp_all [sendInput_lastInput, InputVector.set]

theorem keyup_lastInput (s : Store) (k : String) :
    (keyup s k).lastInput = applyEdge s.lastInput ⟨k, false⟩ := by
  simp only [keyup, applyEdge, KeyEvent.flag, specKeyFlag]
  split_ifs <;> simp_all [sendInput_lastInput, InputVector.set]

theorem onKey_lastInput (s : Store) (e : KeyEvent) :
    (onKey s e).lastInput = applyEdge s.lastInput e := by
  obtain ⟨k, b⟩ := e
  cases b
  · simpa [onKey] using keyup_lastInput s k
  · simpa [onKey] using keydown_lastInput s k

theorem replayKeys_lastInput (es : List KeyEvent) (s : Store) :
    (replayKeys s es).lastInput = es.foldl applyEdge s.lastInput := by
  induction es generalizing s with
  | nil => rfl
  | cons e es ih =>
    simp only [replayKeys, List.foldl_cons] at ih ⊢
    rw [ih, onKey_lastInput]

theorem specFlagAfter_snoc (f : Flag) (es : List KeyEvent) (e : KeyEvent) :
    specFlagAfter f (es ++ [e]) = if e.flag = some f then e.pressed else specFlagAfter f es := by
  simp only [specFlagAfter, List.reverse_append, List.reverse_singleton, List.singleton_append,
    List.find?_cons]
  by_cases h : e.flag = some f <;> simp [h]

theorem set_get (v : InputVector) (f g : Flag) (b : Bool) :
    (v.set f b).get g = if f = g then b else v.get g := by
  cases f <;> cases g <;> simp [InputVector.set, InputVector.get]

theorem set_comm (v : InputVector) (f g : Flag) (a b : Bool) (h : f ≠ g) :
    (v.set f a).set g b = (v.set g b).set f a := by
  cases f <;> cases g <;> simp_all [InputVector.set]

theorem applyEdge_comm (v : InputVector) (e1 e2 : KeyEvent) (h : e1.flag ≠ e2.flag) :
    applyEdge (applyEdge v e1) e2 = applyEdge (applyEdge v e2) e1 := by
  unfold applyEdge
  cases h1 : e1.flag with
  | none => cases h2 : e2.flag <;> rfl
  | some f =>
    cases h2 : e2.flag with
    | none => rfl
    | some g =>
      have hne : f ≠ g := by
        intro hfg
        apply h
        rw [h1, h2, hfg]
      exact set_comm v f g _ _ hne

theorem foldl_applyEdge_get (es : List KeyEvent) (f : Flag) :
    (es.foldl applyEdge InputVector.released).get f = specFlagAfter f es := by
  induction es using List.reverseRecOn with
  | nil => cases f <;> rfl
  | append_singleton es e ih =>
    rw [List.foldl_append, specFlagAfter_snoc, ← ih]
    simp only [List.foldl_cons, List.foldl_nil, applyEdge]
    cases h : e.flag with
    | none => simp
    | some g =>
      rw [set_get]
      by_cases hg : g = f <;> simp [hg]

/-- C4: starting from the all-false input vector, after the replay of any
sequence of keydown/keyup events every flag of `lastInput` equals the pressed
value of the last event whose key (compared case-insensitively) maps to that
flag, and false if there is none; swapping two adjacent events that map to
different flags leaves the resulting vector unchanged; and a keyup of a key
that was never pressed leaves the vector all false, a second keyup changing
nothing more. -/
theorem replay_tracks_last_edge (s : Store) (es : List KeyEvent)
    (h0 : s.lastInput = InputVector.released) :
    (∀ f, (replayKeys s es).lastInput.get f = specFlagAfter f es) ∧
    (∀ pre post e1 e2, e1.flag ≠ e2.flag →
      (replayKeys s (pre ++ e1 :: e2 :: post)).lastInput =
        (replayKeys s (pre ++ e2 :: e1 :: post)).lastInput) ∧
    (∀ k, (keyup s k).lastInput = InputVector.released ∧
      (keyup (keyup s k) k).lastInput = (keyup s k).lastInput) := by
  refine ⟨?_, ?_, ?_⟩
  · intro f
    rw [replayKeys_lastInput, h0, foldl_applyEdge_get]
  · intro pre post e1 e2 hne
    simp only [replayKeys_lastInput, List.foldl_append, List.foldl_cons]
    rw [applyEdge_comm _ e1 e2 hne]
  · intro k
    have h1 : (keyup s k).lastInput = InputVector.released := by
      rw [keyup_lastInput, h0]
      unfold applyEdge
      cases h : KeyEvent.flag ⟨k, false⟩ with
      | none => rfl
      | some f => cases f <;> rfl
    refine ⟨h1, ?_⟩
    rw [keyup_lastInput, h1]
    unfold applyEdge
    cases h : KeyEvent.flag ⟨k, false⟩ with
    | none => rfl
    | some f => cases f <;> rfl

/-- C4, at an instance: ArrowUp and then `a` held together give up and left,
in either order, and a stray keyup of `d` leaves the vector all false. -/
theorem replay_tracks_last_edge_witness :
    (replayKeys (Store.initial "") [⟨"ArrowUp", true⟩, ⟨"a", true⟩]).lastInput.get .up
        = specFlagAfter .up [⟨"ArrowUp", true⟩, ⟨"a", true⟩] ∧
    (replayKeys (Store.initial "") [⟨"ArrowUp", true⟩, ⟨"a", true⟩]).lastInput
        = (replayKeys (Store.initial "") [⟨"a", true⟩, ⟨"ArrowUp", true⟩]).lastInput ∧
    (replayKeys (Store.initial "") [⟨"ArrowUp", true⟩, ⟨"a", true⟩]).lastInput
        = ⟨true, false, true, false, false⟩ ∧
    (keyup (Store.initial "") "d").lastInput = InputVector.released :=
  have h := replay_tracks_last_edge (Store.initial "") [⟨"ArrowUp", true⟩, ⟨"a", true⟩] rfl
  ⟨h.1 .up, h.2.1 [] [] ⟨"ArrowUp", true⟩ ⟨"a", true⟩ (by decide), by decide, (h.2.2 "d").1⟩

/-- C7, as stated, fails: with up already held, in a match and connected, a
repeated keydown of `w` leaves the input vector as it was and still emits an
`input` message. -/
theorem repeated_keydown_still_transmits :
    (keydown { sampleInMatch with lastInput := ⟨true, false, false, false, false⟩ } "w").lastInput
        = ⟨true, false, false, false, false⟩ ∧
    (keydown { sampleInMatch with lastInput := ⟨true, false, false, false, false⟩ } "w").socket
        = some ⟨"sid", true,
            [Emit.input (.str "m1") (.str "p2") ⟨true, false, false, false, false⟩]⟩ := by
  constructor <;> rfl

theorem keydown_eq (s : Store) (k : String) :
    keydown s k =
      match specKeyFlag (toLowerCase k) with
      | some f => sendInput { s with lastInput := s.lastInput.set f true }
      | none => s := by
  simp only [keydown, specKeyFlag]
  split_ifs <;> first | rfl | (exfalso; simp_all)

theorem keyup_eq (s : Store) (k : String) :
    keyup s k =
      match specKeyFlag (toLowerCase k) with
      | some f => sendInput { s with lastInput := s.lastInput.set f false }
      | none => s := by
  simp only [keyup, specKeyFlag]
  split_ifs <;> first | rfl | (exfalso; simp_all)

theorem onKey_eq (s : Store) (e : KeyEvent) :
    onKey s e =
      match e.flag with
      | some f => sendInput { s with lastInput := s.lastInput.set f e.pressed }
      | none => s := by
  obtain ⟨k, b⟩ := e
  cases b
  · simpa [onKey, KeyEvent.flag] using keyup_eq s k
  · simpa [onKey, KeyEvent.flag] using keydown_eq s k

/-- C7, amended: while connected and in a match (matchId and role truthy),
every event on a mapped key sets its flag to the pressed value and emits
exactly one `input` message carrying the updated vector, whether or not the
flag changed; an event on an unmapped key leaves the whole store as it was, so
it changes no flag and emits nothing. -/
theorem mapped_key_always_transmits (s : Store) (sock : Socket) (e : KeyEvent)
    (hs : s.socket = some sock) (hc : sock.connected = true) (hi : s.inMatch = true)
    (hm : s.matchId.truthy = true) (hr : s.role.truthy = true) :
    (∀ f, e.flag = some f →
      onKey s e = { s with
        lastInput := s.lastInput.set f e.pressed
        socket := (some { sock with sent := sock.sent ++
          [Emit.input s.matchId s.role (s.lastInput.set f e.pressed)] }) }) ∧
    (e.flag = none → onKey s e = s) := by
  constructor
  · intro f hf
    rw [onKey_eq, hf]
    simp [sendInput, hs, hc, hi, hm, hr]
  · intro hf
    rw [onKey_eq, hf]

/-- C7 amended, at instances: a repeated keydown of `w` transmits, a keydown
of `q` does nothing. -/
theorem mapped_key_always_transmits_witness :
    onKey { sampleInMatch with lastInput := ⟨true, false, false, false, false⟩ } ⟨"w", true⟩
      = { sampleInMatch with
          lastInput := ⟨true, false, false, false, false⟩
          socket := (some ⟨"sid", true,
            [Emit.input (.str "m1") (.str "p2") ⟨true, false, false, false, false⟩]⟩) } ∧
    onKey sampleInMatch ⟨"q", true⟩ = sampleInMatch :=
  ⟨(mapped_key_always_transmits
      { sampleInMatch with lastInput := ⟨true, false, false, false, false⟩ }
      ⟨"sid", true, []⟩ ⟨"w", true⟩ rfl rfl rfl rfl rfl).1 .up (by decide),
   (mapped_key_always_transmits sampleInMatch ⟨"sid", true, []⟩ ⟨"q", true⟩
      rfl rfl rfl rfl rfl).2 (by decide)⟩

/-! ### Match membership -/

theorem tryRead_frame {α : Type} (proj : Store → α) (a : α) (r : Except Abrupt JSVal)
    (s : Store) (k : JSVal → Outcome) (hs : proj s = a) (hk : ∀ v, proj (k v).store = a) :
    proj (tryRead r s k).store = a := by
  cases r with
  | error e => exact hs
  | ok v => exact hk v

theorem onState_frame (s : Store) (v : JSVal) :
    outsideSnapshot (onState s v).store = outsideSnapshot s := by
  unfold onState
  refine tryRead_frame _ _ _ _ _ rfl fun _ => ?_
  refine tryRead_frame _ _ _ _ _ rfl fun _ => ?_
  refine tryRead_frame _ _ _ _ _ rfl fun _ => ?_
  refine tryRead_frame _ _ _ _ _ rfl fun _ => ?_
  refine tryRead_frame _ _ _ _ _ rfl fun _ => ?_
  refine tryRead_frame _ _ _ _ _ rfl fun _ => ?_
  refine tryRead_frame _ _ _ _ _ rfl fun _ => ?_
  refine tryRead_frame _ _ _ _ _ rfl fun _ => ?_
  rfl

theorem onMatchEnd_frame (s : Store) (v : JSVal) :
    outsideSnapshot (onMatchEnd s v).store = outsideSnapshot s := by
  unfold onMatchEnd
  exact tryRead_frame _ _ _ _ _ rfl fun _ => rfl

theorem sendInput_tagged (m r : JSVal) (t : Store) (h : Tagged m r t) :
    Tagged m r (sendInput t) := by
  obtain ⟨hi, hm, hr, sock, hs, hc⟩ := h
  unfold sendInput
  rw [hs]
  dsimp only
  split
  · exact ⟨hi, hm, hr, sock, hs, hc⟩
  · exact ⟨hi, hm, hr, _, rfl, hc⟩

theorem step_tagged (m r : JSVal) (t : Store) (ev : Event) (hev : ev.keepsMembership = true)
    (h : Tagged m r t) : Tagged m r (step t ev) := by
  cases ev with
  | matchStart p => simp [Event.keepsMembership] at hev
  | disconnect => simp [Event.keepsMembership] at hev
  | state p =>
    have hf := onState_frame t p
    simp only [outsideSnapshot, Prod.mk.injEq] at hf
    obtain ⟨h1, -, -, h2, h3, h4, -, -⟩ := hf
    simpa [step, Tagged, h1, h2, h3, h4] using h
  | matchEnd p =>
    have hf := onMatchEnd_frame t p
    simp only [outsideSnapshot, Prod.mk.injEq] at hf
    obtain ⟨h1, -, -, h2, h3, h4, -, -⟩ := hf
    simpa [step, Tagged, h1, h2, h3, h4] using h
  | key e =>
    simp only [step, onKey_eq]
    cases e.flag with
    | none => exact h
    | some f => exact sendInput_tagged m r _ h

theorem run_tagged (m r : JSVal) (evs : List Event) (t : Store)
    (hev : ∀ ev ∈ evs, ev.keepsMembership = true) (h : Tagged m r t) :
    Tagged m r (run t evs) := by
  induction evs generalizing t with
  | nil => exact h
  | cons ev evs ih =>
    simp only [run, List.foldl_cons]
    exact ih (step t ev) (fun e he => hev e (List.mem_cons_of_mem _ he))
      (step_tagged m r t ev (hev ev (List.mem_cons_self _ _)) h)

/-- C5, as stated, fails: a match-found payload with the empty string as match
id and role p1 for this connection establishes the membership, and `sendInput`
on the connected socket right afterwards emits nothing. -/
theorem empty_match_id_suppresses_input :
    (onMatchStart sampleConnected emptyIdMatchFound).error = none ∧
    (onMatchStart sampleConnected emptyIdMatchFound).store.inMatch = true ∧
    (onMatchStart sampleConnected emptyIdMatchFound).store.matchId = .str "" ∧
    (onMatchStart sampleConnected emptyIdMatchFound).store.role = .str "p1" ∧
    (sendInput (onMatchStart sampleConnected emptyIdMatchFound).store).socket
      = some ⟨"sid", true, []⟩ := by
  refine ⟨rfl, rfl, rfl, rfl, rfl⟩

/-- C5, amended: for every match-found payload whose matchId `m` is truthy and
whose youAre maps this connection's socket id to a role `r` in p1, p2, the
`match_start` handler completes normally and sets matchId to `m`, role to `r`,
inMatch to true, `serverState.finished` to false and `serverState.winner` to
null; and on a connected socket, after any further events other than
`disconnect` and `match_start`, `sendInput` emits exactly one `input` message
carrying `m`, `r` and the input vector of that moment. -/
theorem match_start_tags_input (s : Store) (sock : Socket) (fields : List (String × JSVal))
    (m youAre : JSVal) (r : String)
    (hs : s.socket = some sock)
    (hm : (JSVal.obj fields).getProp "matchId" = .ok m)
    (hy : (JSVal.obj fields).getProp "youAre" = .ok youAre)
    (hr : youAre.getProp sock.id = .ok (.str r))
    (hrole : r = "p1" ∨ r = "p2")
    (hmt : m.truthy = true) :
    (onMatchStart s (.obj fields)).error = none ∧
    (onMatchStart s (.obj fields)).store.matchId = m ∧
    (onMatchStart s (.obj fields)).store.role = .str r ∧
    (onMatchStart s (.obj fields)).store.inMatch = true ∧
    (onMatchStart s (.obj fields)).store.serverState.finished = .bool false ∧
    (onMatchStart s (.obj fields)).store.serverState.winner = .null ∧
    (sock.connected = true → ∀ evs : List Event, (∀ ev ∈ evs, ev.keepsMembership = true) →
      ∃ now, (run (onMatchStart s (.obj fields)).store evs).socket = some now ∧
        sendInput (run (onMatchStart s (.obj fields)).store evs) =
          { run (onMatchStart s (.obj fields)).store evs with
            socket := (some { now with sent := now.sent ++
              [Emit.input m (.str r)
                (run (onMatchStart s (.obj fields)).store evs).lastInput] }) }) := by
  have hup : ∃ u, roleToUpperCase (.str r) = .ok u := by
    rcases hrole with h | h <;> subst h <;> exact ⟨_, rfl⟩
  obtain ⟨u, hu⟩ := hup
  have ho : onMatchStart s (.obj fields) =
      ⟨setStatus { s with
          matchId := m, role := .str r, inMatch := true
          serverState := { s.serverState with finished := .bool false, winner := .null } }
        ((Text.lit "матч найден, ты: ").append u), none⟩ := by
    simp [onMatchStart, tryRead, hm, hy, hs, hr, hu]
  rw [ho]
  refine ⟨rfl, rfl, rfl, rfl, rfl, rfl, ?_⟩
  intro hc evs hev
  have ht : Tagged m (.str r) (run (setStatus { s with
          matchId := m, role := .str r, inMatch := true
          serverState := { s.serverState with finished := .bool false, winner := .null } }
        ((Text.lit "матч найден, ты: ").append u)) evs) :=
    run_tagged m (.str r) evs _ hev ⟨rfl, rfl, rfl, sock, hs, hc⟩
  obtain ⟨hi, hmid, hrl, now, hnow, hcon⟩ := ht
  refine ⟨now, hnow, ?_⟩
  have hrt : (JSVal.str r).truthy = true := by
    rcases hrole with h | h <;> subst h <;> rfl
  simp [sendInput, hnow, hcon, hi, hmid, hrl, hmt, hrt]

/-- C5 amended, at the scenario of the specification: match `m1`, own role p2;
the membership is m1, p2 and, after a world update and a keydown of `w`, the
message sent by `sendInput` is tagged m1, p2 and carries up = true. -/
theorem match_start_tags_input_witness :
    (onMatchStart sampleConnected sampleMatchFound).store.matchId = .str "m1" ∧
    (onMatchStart sampleConnected sampleMatchFound).store.role = .str "p2" ∧
    (onMatchStart sampleConnected sampleMatchFound).store.inMatch = true ∧
    ∃ now, (run (onMatchStart sampleConnected sampleMatchFound).store
        [.state sampleUpdateA, .key ⟨"w", true⟩]).socket = some now ∧
      sendInput (run (onMatchStart sampleConnected sampleMatchFound).store
          [.state sampleUpdateA, .key ⟨"w", true⟩]) =
        { run (onMatchStart sampleConnected sampleMatchFound).store
            [.state sampleUpdateA, .key ⟨"w", true⟩] with
          socket := (some { now with sent := now.sent ++
            [Emit.input (.str "m1") (.str "p2")
              (run (onMatchStart sampleConnected sampleMatchFound).store
                [.state sampleUpdateA, .key ⟨"w", true⟩]).lastInput] }) } :=
  have h := match_start_tags_input sampleConnected ⟨"sid", true, []⟩
    [("matchId", .str "m1"), ("youAre", .obj [("other", .str "p1"), ("sid", .str "p2")])]
    (.str "m1") (.obj [("other", .str "p1"), ("sid", .str "p2")]) "p2"
    rfl rfl rfl rfl (Or.inr rfl) rfl
  ⟨h.2.1, h.2.2.1, h.2.2.2.1,
    h.2.2.2.2.2.2 rfl [.state sampleUpdateA, .key ⟨"w", true⟩] (by decide)⟩

/-! ### Renderer -/

theorem mapM_ok_map {α β : Type} (f : α → Except Abrupt β) (g : α → β)
    (l : List α) (h : ∀ a ∈ l, f a = .ok (g a)) : l.mapM f = .ok (l.map g) := by
  induction l with
  | nil => rfl
  | cons a l ih =>
    rw [List.mapM_cons, h a (List.mem_cons_self _ _),
      ih fun x hx => h x (List.mem_cons_of_mem _ hx)]
    rfl

theorem tileColor_num (q : ℚ) : tileColor (.num q) = .ok (.color (expectedTileColor q)) := by
  simp only [tileColor]
  split_ifs with h
  · obtain ⟨hd, h0, h5⟩ := h
    have hq : q = (q.num : ℚ) := (Rat.coe_int_num_of_den_eq_one hd).symm
    generalize q.num = n at hq h0 h5
    subst hq
    interval_cases n <;> simp [expectedTileColor, colorOfKey, COLORS, TILE_EMPTY, TILE_BRICK,
      TILE_STEEL, TILE_WATER, TILE_GRASS, TILE_EAGLE, List.lookup] <;> rfl
  · have hne : ∀ n : ℕ, n ≤ 5 → q ≠ (n : ℚ) := by
      intro n hn hq
      apply h
      subst hq
      refine ⟨by simp, by simp, ?_⟩
      simp only [Rat.num_natCast]
      exact_mod_cast hn
    have h1 := hne 1 (by norm_num)
    have h2 := hne 2 (by norm_num)
    have h3 := hne 3 (by norm_num)
    have h4 := hne 4 (by norm_num)
    have h5 := hne 5 (by norm_num)
    simp only [Nat.cast_one, Nat.cast_ofNat] at h1 h2 h3 h4 h5
    simp [expectedTileColor, h1, h2, h3, h4, h5]

theorem grid_row (g : List (List ℚ)) (hg : FullGrid g) (y : Nat) (hy : y < 13) :
    ∃ row, g[y]? = some row ∧ row.length = 13 := by
  have hy2 : y < g.length := by rw [hg.1]; exact hy
  exact ⟨g[y], by simp [hy2], hg.2 _ (List.getElem_mem _)⟩

theorem grid_cell (g : List (List ℚ)) (hg : FullGrid g) (y x : Nat) (hy : y < 13)
    (hx : x < 13) : ∃ row, g[y]? = some row ∧ row[x]? = some (tileAt g y x) := by
  obtain ⟨row, hrow, hlen⟩ := grid_row g hg y hy
  have hx2 : x < row.length := by rw [hlen]; exact hx
  refine ⟨row, hrow, ?_⟩
  simp [tileAt, hrow, hx2]

theorem readCell_gridMap (g : List (List ℚ)) (hg : FullGrid g) (y x : Nat) (hy : y < 13)
    (hx : x < 13) :
    ∃ row, (gridMap g).getIndex y = .ok row ∧ row.getIndex x = .ok (.num (tileAt g y x)) := by
  obtain ⟨row, hrow, hcell⟩ := grid_cell g hg y x hy hx
  refine ⟨.arr (row.map .num), ?_, ?_⟩
  · simp [gridMap, JSVal.getIndex, hrow]
  · simp [JSVal.getIndex, hcell]

theorem drawCell_grid (g : List (List ℚ)) (hg : FullGrid g) (y x : Nat)
    (hy : y < 13) (hx : x < 13) :
    drawCell (gridMap g) y x = .ok (expectedCellOps (tileAt g y x) y x) := by
  obtain ⟨row, h1, h2⟩ := readCell_gridMap g hg y x hy hx
  unfold drawCell
  simp only [h1, h2, tileColor_num, bind, Except.bind, pure, Except.pure]
  by_cases h5 : tileAt g y x = 5
  · simp [expectedCellOps, h5, JSVal.strictEqNum, TILE_EAGLE, TILE_SIZE, Paint.assign]
  · simp [expectedCellOps, h5, JSVal.strictEqNum, TILE_EAGLE, TILE_SIZE, Paint.assign]

theorem drawRow_grid (g : List (List ℚ)) (hg : FullGrid g) (y : Nat) (hy : y < 13) :
    drawRow (gridMap g) y =
      .ok ((List.range 13).map fun x => expectedCellOps (tileAt g y x) y x).flatten := by
  unfold drawRow
  rw [show MAP_W = 13 from rfl,
    mapM_ok_map (fun x => drawCell (gridMap g) y x)
      (fun x => expectedCellOps (tileAt g y x) y x) (List.range 13)
      (fun x hx => drawCell_grid g hg y x hy (List.mem_range.mp hx))]
  rfl

theorem drawMap_null (cv : Canvas) (s : Store) (h : s.serverState.map = .null) :
    drawMap cv s = .ok (placeholderOps cv) := by
  simp [drawMap, h, JSVal.truthy, placeholderOps]

theorem drawMap_grid (cv : Canvas) (s : Store) (g : List (List ℚ)) (hg : FullGrid g)
    (hmap : s.serverState.map = gridMap g) : drawMap cv s = .ok (expectedGridOps g) := by
  have htruthy : (gridMap g).truthy = true := rfl
  unfold drawMap
  simp only [hmap, htruthy, Bool.not_true, Bool.false_eq_true, if_false]
  rw [show MAP_H = 13 from rfl,
    mapM_ok_map (fun y => drawRow (gridMap g) y)
      (fun y => ((List.range 13).map fun x => expectedCellOps (tileAt g y x) y x).flatten)
      (List.range 13)
      (fun y hy => drawRow_grid g hg y (List.mem_range.mp hy))]
  rfl

theorem readCell_expectedCellOps (t : ℚ) (y x : Nat) :
    (expectedCellOps t y x).filterMap Op.readCell = [(y, x, JSVal.num t)] := by
  unfold expectedCellOps
  split_ifs <;> rfl

theorem readCell_expectedGridOps (g : List (List ℚ)) :
    (expectedGridOps g).filterMap Op.readCell = expectedReads g := by
  simp only [expectedGridOps, expectedReads, List.filterMap_flatten, List.map_map]
  congr 1
  apply List.map_congr_left
  intro y _
  simp only [Function.comp]
  induction List.range 13 with
  | nil => rfl
  | cons x xs ih =>
    simp only [List.map_cons, List.flatten_cons, List.filterMap_append,
      readCell_expectedCellOps, ih, List.singleton_append]

/-- C9: when no snapshot has been received (`serverState.map` is null),
`drawMap` performs exactly the placeholder steps - the full-canvas black fill
and the waiting text - with no read of a map cell and no tile rectangle; and
when the map is a full 13 x 13 grid, `drawMap` performs exactly the expected
steps of that grid, whose reads are the cells `(y, x)` with `y < 13` and
`x < 13`, each once and row by row, every read lying inside the grid and
returning the tile stored at that row and column. -/
theorem drawMap_reads_only_grid_cells (cv : Canvas) (s : Store) :
    (s.serverState.map = .null →
      drawMap cv s = .ok (placeholderOps cv) ∧
      (placeholderOps cv).filterMap Op.readCell = [] ∧
      (placeholderOps cv).length = 5) ∧
    (∀ g : List (List ℚ), FullGrid g → s.serverState.map = gridMap g →
      ∃ ops, drawMap cv s = .ok ops ∧
        ops = expectedGridOps g ∧
        ops.filterMap Op.readCell = expectedReads g ∧
        (expectedReads g).map (fun r => (r.1, r.2.1)) = allCells ∧
        ∀ r ∈ expectedReads g, r.1 < 13 ∧ r.2.1 < 13 ∧
          ∃ row t, g[r.1]? = some row ∧ row[r.2.1]? = some t ∧ r.2.2 = .num t) := by
  constructor
  · intro h
    exact ⟨drawMap_null cv s h, rfl, rfl⟩
  · intro g hg hmap
    refine ⟨_, drawMap_grid cv s g hg hmap, rfl, readCell_expectedGridOps g, ?_, ?_⟩
    · simp only [expectedReads, allCells, List.map_flatten, List.map_map]
      rfl
    · intro r hr
      simp only [expectedReads, List.mem_flatten, List.mem_map, List.mem_range] at hr
      obtain ⟨l, ⟨y, hy, rfl⟩, hr⟩ := hr
      simp only [List.mem_map, List.mem_range] at hr
      obtain ⟨x, hx, rfl⟩ := hr
      obtain ⟨row, hrow, hcell⟩ := grid_cell g hg y x hy hx
      exact ⟨hy, hx, row, _, hrow, hcell, rfl⟩

/-- C9, at instances: the initial store takes the placeholder path, and on a
store with a 13 x 13 map the steps are those expected of the grid, with one
read per cell. -/
theorem drawMap_reads_only_grid_cells_witness :
    drawMap ⟨416, 416⟩ (Store.initial "") = .ok (placeholderOps ⟨416, 416⟩) ∧
    ∃ ops, drawMap ⟨416, 416⟩ sampleWithMap = .ok ops ∧
      ops = expectedGridOps sampleGrid ∧
      ops.filterMap Op.readCell = expectedReads sampleGrid :=
  ⟨((drawMap_reads_only_grid_cells ⟨416, 416⟩ (Store.initial "")).1 rfl).1,
   match (drawMap_reads_only_grid_cells ⟨416, 416⟩ sampleWithMap).2 sampleGrid
      ⟨by decide, by decide⟩ rfl with
   | ⟨ops, h1, h2, h3, _⟩ => ⟨ops, h1, h2, h3⟩⟩

theorem drawBullet_of_isBullet (b : JSVal) (x y z : ℚ) (h : IsBullet b x y z) :
    drawBullet b = .ok [.fillRect (.num (x - bulletSide z / 2)) (.num (y - bulletSide z / 2))
      (.num (bulletSide z)) (.num (bulletSide z))] := by
  obtain ⟨ht, hx, hy, hz⟩ := h
  have hnum : ∀ q : ℚ, (JSVal.num q).truthy = decide (q ≠ 0) := fun _ => rfl
  unfold drawBullet
  by_cases h0 : z = 0
  · simp [ht, hx, hy, hz, h0, bulletSide, hnum, JSVal.divLit, JSVal.sub,
      JSVal.toNumber, numOp, bind, Except.bind, pure, Except.pure]
  · simp [ht, hx, hy, hz, h0, bulletSide, hnum, JSVal.divLit, JSVal.sub,
      JSVal.toNumber, numOp, bind, Except.bind, pure, Except.pure]

/-- C10, as stated, fails: with both bullets present and the bullet of p1 given
with size 0, the square drawn for p1 has side 6, not 0. -/
theorem zero_size_bullet_drawn_with_side_six :
    drawBullets sampleZeroSize =
      .ok [.setFillStyle "#ffeb3b",
           .fillRect (.num (5 - 6 / 2)) (.num (7 - 6 / 2)) (.num 6) (.num 6),
           .fillRect (.num (40 - 4 / 2)) (.num (50 - 4 / 2)) (.num 4) (.num 4)] := by
  simp [drawBullets, sampleZeroSize, sampleInMatch, JSVal.getProp, List.lookup, drawBullet,
    JSVal.truthy, JSVal.divLit, JSVal.sub, JSVal.toNumber, numOp, bind, Except.bind, pure,
    Except.pure]

theorem drawBullet_absent : drawBullet .null = .ok [] := rfl

/-- C10, amended: for every snapshot in which both bullets are present with
numeric position and size, `drawBullets` draws exactly two filled squares, one
per bullet, each centred at that bullet's `(x, y)`, with side equal to that
bullet's size when the size is not 0 and equal to 6 when it is 0; the square of
one bullet is the same when the other bullet is absent. -/
theorem drawBullets_two_squares (s : Store) (b1 b2 : JSVal) (x1 y1 z1 x2 y2 z2 : ℚ)
    (h1 : s.serverState.bullets.getProp "p1" = .ok b1)
    (h2 : s.serverState.bullets.getProp "p2" = .ok b2)
    (hb1 : IsBullet b1 x1 y1 z1) (hb2 : IsBullet b2 x2 y2 z2) :
    drawBullets s =
      .ok [.setFillStyle "#ffeb3b",
           .fillRect (.num (x1 - bulletSide z1 / 2)) (.num (y1 - bulletSide z1 / 2))
             (.num (bulletSide z1)) (.num (bulletSide z1)),
           .fillRect (.num (x2 - bulletSide z2 / 2)) (.num (y2 - bulletSide z2 / 2))
             (.num (bulletSide z2)) (.num (bulletSide z2))] ∧
    (z1 ≠ 0 → bulletSide z1 = z1) ∧ (z2 ≠ 0 → bulletSide z2 = z2) ∧
    (z1 = 0 → bulletSide z1 = 6) ∧ (z2 = 0 → bulletSide z2 = 6) ∧
    (∀ t : Store, t.serverState.bullets.getProp "p1" = .ok b1 →
        t.serverState.bullets.getProp "p2" = .ok .null →
      drawBullets t =
        .ok [.setFillStyle "#ffeb3b",
             .fillRect (.num (x1 - bulletSide z1 / 2)) (.num (y1 - bulletSide z1 / 2))
               (.num (bulletSide z1)) (.num (bulletSide z1))]) ∧
    (∀ t : Store, t.serverState.bullets.getProp "p1" = .ok .null →
        t.serverState.bullets.getProp "p2" = .ok b2 →
      drawBullets t =
        .ok [.setFillStyle "#ffeb3b",
             .fillRect (.num (x2 - bulletSide z2 / 2)) (.num (y2 - bulletSide z2 / 2))
               (.num (bulletSide z2)) (.num (bulletSide z2))]) := by
  have d1 := drawBullet_of_isBullet b1 x1 y1 z1 hb1
  have d2 := drawBullet_of_isBullet b2 x2 y2 z2 hb2
  refine ⟨?_, ?_, ?_, ?_, ?_, ?_, ?_⟩
  · simp [drawBullets, h1, h2, d1, d2, bind, Except.bind, pure, Except.pure]
  · intro h; simp [bulletSide, h]
  · intro h; simp [bulletSide, h]
  · intro h; simp [bulletSide, h]
  · intro h; simp [bulletSide, h]
  · intro t ht1 ht2
    simp [drawBullets, ht1, ht2, d1, drawBullet_absent, bind, Except.bind, pure, Except.pure]
  · intro t ht1 ht2
    simp [drawBullets, ht1, ht2, d2, drawBullet_absent, bind, Except.bind, pure, Except.pure]

/-- C10 amended, at an instance: bullets of sizes 6 and 4 at (5, 7) and
(40, 50). -/
theorem drawBullets_two_squares_witness :
    drawBullets sampleTwoBullets =
      .ok [.setFillStyle "#ffeb3b",
           .fillRect (.num (5 - bulletSide 6 / 2)) (.num (7 - bulletSide 6 / 2))
             (.num (bulletSide 6)) (.num (bulletSide 6)),
           .fillRect (.num (40 - bulletSide 4 / 2)) (.num (50 - bulletSide 4 / 2))
             (.num (bulletSide 4)) (.num (bulletSide 4))] ∧
    bulletSide 6 = 6 ∧ bulletSide 4 = 4 :=
  have h := drawBullets_two_squares sampleTwoBullets
    (.obj [("x", .num 5), ("y", .num 7), ("size", .num 6)])
    (.obj [("x", .num 40), ("y", .num 50), ("size", .num 4)]) 5 7 6 40 50 4
    rfl rfl ⟨rfl, rfl, rfl, rfl⟩ ⟨rfl, rfl, rfl, rfl⟩
  ⟨h.1, h.2.1 (by decide), h.2.2.1 (by decide)⟩


theorem loop_stops_at_drawMap (cv : Canvas) (s : Store) (h : ThrowsTypeError (drawMap cv s)) :
    ThrowsTypeError (loop cv s) := by
  obtain ⟨w, hw⟩ := h
  exact ⟨w, by simp [loop, hw, bind, Except.bind]⟩

theorem loop_stops_at_drawBullets (cv : Canvas) (s : Store) (m t1 t2 : List Op)
    (hm : drawMap cv s = .ok m)
    (ht1 : drawTank s.serverState.players.p1 "#4caf50" = .ok t1)
    (ht2 : drawTank s.serverState.players.p2 "#ff9800" = .ok t2)
    (h : ThrowsTypeError (drawBullets s)) : ThrowsTypeError (loop cv s) := by
  obtain ⟨w, hw⟩ := h
  exact ⟨w, by simp [loop, hm, ht1, ht2, hw, bind, Except.bind]⟩

theorem loop_stops_at_drawHUD (cv : Canvas) (s : Store) (m t1 t2 b : List Op)
    (hm : drawMap cv s = .ok m)
    (ht1 : drawTank s.serverState.players.p1 "#4caf50" = .ok t1)
    (ht2 : drawTank s.serverState.players.p2 "#ff9800" = .ok t2)
    (hb : drawBullets s = .ok b)
    (h : ThrowsTypeError (drawHUD cv s)) : ThrowsTypeError (loop cv s) := by
  obtain ⟨w, hw⟩ := h
  exact ⟨w, by simp [loop, hm, ht1, ht2, hb, hw, bind, Except.bind]⟩


theorem loop_ends_with_request (cv : Canvas) (s : Store) (ops : List Op)
    (h : loop cv s = .ok ops) : ops.getLast? = some .requestAnimationFrame := by
  unfold loop at h
  cases hm : drawMap cv s <;> rw [hm] at h <;> try cases h
  cases h1 : drawTank s.serverState.players.p1 "#4caf50" <;> rw [h1] at h <;> try cases h
  cases h2 : drawTank s.serverState.players.p2 "#ff9800" <;> rw [h2] at h <;> try cases h
  cases hb : drawBullets s <;> rw [hb] at h <;> try cases h
  cases hh : drawHUD cv s <;> rw [hh] at h <;> try cases h
  exact List.getLast?_concat _


/-! ### Frames that complete -/

theorem getProp_ok_of_present (v : JSVal) (key : String) (hv : v.present = true)
    (h1 : key ≠ "length") (h2 : canonicalIndex key = none) (h3 : key ∈ scriptNames) :
    v.getProp key = .ok (v.field key) := by
  have hex : ∃ w, v.getProp key = .ok w := by
    cases v with
    | undefined => simp [JSVal.present] at hv
    | null => simp [JSVal.present] at hv
    | obj fields =>
      simp only [JSVal.getProp]
      cases fields.lookup key <;> exact ⟨_, rfl⟩
    | arr items =>
      simp only [JSVal.getProp, if_neg h1, h2]
      exact ⟨_, rfl⟩
    | str s =>
      simp only [JSVal.getProp, if_neg h1, h2]
      exact ⟨_, rfl⟩
    | num q => exact ⟨_, rfl⟩
    | nan => exact ⟨_, rfl⟩
    | bool b => exact ⟨_, rfl⟩
    | builtin n =>
      simp only [JSVal.getProp, if_pos h3]
      exact ⟨_, rfl⟩
  obtain ⟨w, hw⟩ := hex
  simp only [JSVal.field, hw]

theorem present_of_truthy (v : JSVal) (h : v.truthy = true) : v.present = true := by
  cases v <;> first | rfl | simp [JSVal.truthy] at h

theorem toNumber_ok (v : JSVal) (h : v.converts = true) : ∃ c, v.toNumber = .ok c := by
  simp only [JSVal.converts, Bool.not_eq_true'] at h
  cases v <;> first
    | exact ⟨_, rfl⟩
    | (simp only [JSVal.toNumber, h, Bool.false_eq_true, if_false]; exact ⟨_, rfl⟩)

theorem sub_ok (v : JSVal) (c : Coord) (h : v.converts = true) : ∃ r, v.sub c = .ok r := by
  obtain ⟨n, hn⟩ := toNumber_ok v h
  simp only [JSVal.sub, hn, bind, Except.bind, pure, Except.pure]
  exact ⟨_, rfl⟩

theorem divLit_ok (v : JSVal) (d : ℚ) (h : v.converts = true) : ∃ r, v.divLit d = .ok r := by
  obtain ⟨n, hn⟩ := toNumber_ok v h
  simp only [JSVal.divLit, hn, bind, Except.bind, pure, Except.pure]
  exact ⟨_, rfl⟩

theorem add_ok (v : JSVal) (c : ℚ) (h : v.converts = true) : ∃ r, v.add c = .ok r := by
  simp only [JSVal.converts, Bool.not_eq_true'] at h
  cases v <;> first
    | exact ⟨_, rfl⟩
    | (simp only [JSVal.add, h, Bool.false_eq_true, if_false]; exact ⟨_, rfl⟩)

theorem toDisplayString_ok (v : JSVal) (h : v.converts = true) :
    ∃ text, v.toDisplayString = .ok text := by
  simp only [JSVal.converts, Bool.not_eq_true'] at h
  cases v with
  | num q =>
    simp only [JSVal.toDisplayString]
    split_ifs <;> exact ⟨_, rfl⟩
  | arr items =>
    simp only [JSVal.toDisplayString, h, Bool.false_eq_true, if_false]
    exact ⟨_, rfl⟩
  | obj fields =>
    simp only [JSVal.toDisplayString, h, Bool.false_eq_true, if_false]
    exact ⟨_, rfl⟩
  | _ => exact ⟨_, rfl⟩

theorem conversionThrowsAny_single (e : JSVal) :
    conversionThrowsAny [e] = e.conversionThrows := by
  simp [conversionThrowsAny]

theorem tileColor_ok (v : JSVal) (h : v.converts = true) : ∃ paint, tileColor v = .ok paint := by
  simp only [JSVal.converts, Bool.not_eq_true'] at h
  induction v using tileColor.induct with
  | case1 q hq =>
    simp only [tileColor, if_pos hq]
    exact ⟨_, rfl⟩
  | case2 q hq =>
    simp only [tileColor, if_neg hq]
    exact ⟨_, rfl⟩
  | case9 fields hf => rw [h] at hf; cases hf
  | case10 fields hf =>
    simp only [tileColor, hf, if_false]
    exact ⟨_, rfl⟩
  | case11 items hi =>
    simp only [JSVal.conversionThrows] at h
    rw [h] at hi
    cases hi
  | case12 hi =>
    simp only [tileColor, hi, if_false]
    exact ⟨_, rfl⟩
  | case13 hi =>
    simp only [tileColor, hi, if_false]
    exact ⟨_, rfl⟩
  | case14 e h1 h2 hi ih =>
    have he : e.conversionThrows = false := by
      rw [conversionThrowsAny_single] at hi
      simpa using hi
    obtain ⟨paint, hp⟩ := ih he
    refine ⟨paint, ?_⟩
    rw [tileColor]
    · simp only [hi, if_false]
      exact hp
    · exact h1
    · exact h2
  | case15 items hi h1 h2 h3 =>
    refine ⟨.color "#111", ?_⟩
    rw [tileColor]
    · simp [hi]
    · exact h1
    · exact h2
    · exact h3
  | _ => exact ⟨_, rfl⟩

theorem getProp_active (v : JSVal) (hv : v.present = true) :
    v.getProp "active" = .ok (v.field "active") :=
  getProp_ok_of_present v _ hv (by decide) (by decide) (by decide)

theorem getProp_x (v : JSVal) (hv : v.present = true) : v.getProp "x" = .ok (v.field "x") :=
  getProp_ok_of_present v _ hv (by decide) (by decide) (by decide)

theorem getProp_y (v : JSVal) (hv : v.present = true) : v.getProp "y" = .ok (v.field "y") :=
  getProp_ok_of_present v _ hv (by decide) (by decide) (by decide)

theorem getProp_dirX (v : JSVal) (hv : v.present = true) :
    v.getProp "dirX" = .ok (v.field "dirX") :=
  getProp_ok_of_present v _ hv (by decide) (by decide) (by decide)

theorem getProp_dirY (v : JSVal) (hv : v.present = true) :
    v.getProp "dirY" = .ok (v.field "dirY") :=
  getProp_ok_of_present v _ hv (by decide) (by decide) (by decide)

theorem getProp_lives (v : JSVal) (hv : v.present = true) :
    v.getProp "lives" = .ok (v.field "lives") :=
  getProp_ok_of_present v _ hv (by decide) (by decide) (by decide)

theorem getProp_size (v : JSVal) (hv : v.present = true) :
    v.getProp "size" = .ok (v.field "size") :=
  getProp_ok_of_present v _ hv (by decide) (by decide) (by decide)

theorem getProp_p1 (v : JSVal) (hv : v.present = true) : v.getProp "p1" = .ok (v.field "p1") :=
  getProp_ok_of_present v _ hv (by decide) (by decide) (by decide)

theorem getProp_p2 (v : JSVal) (hv : v.present = true) : v.getProp "p2" = .ok (v.field "p2") :=
  getProp_ok_of_present v _ hv (by decide) (by decide) (by decide)

theorem mapM_ok_exists {α β : Type} (f : α → Except Abrupt β) (l : List α)
    (h : ∀ a ∈ l, ∃ b, f a = .ok b) : ∃ bs, l.mapM f = .ok bs := by
  induction l with
  | nil => exact ⟨[], rfl⟩
  | cons a l ih =>
    obtain ⟨b, hb⟩ := h a (List.mem_cons_self _ _)
    obtain ⟨bs, hbs⟩ := ih fun x hx => h x (List.mem_cons_of_mem _ hx)
    refine ⟨b :: bs, ?_⟩
    rw [List.mapM_cons, hb, hbs]
    rfl

theorem drawCell_safe (m row tile : JSVal) (y x : Nat) (hrow : m.getIndex y = .ok row)
    (htile : row.getIndex x = .ok tile) (hc : tile.converts = true) :
    ∃ ops, drawCell m y x = .ok ops := by
  obtain ⟨paint, hp⟩ := tileColor_ok tile hc
  unfold drawCell
  simp only [hrow, htile, hp, bind, Except.bind, pure, Except.pure]
  split_ifs <;> exact ⟨_, rfl⟩

theorem drawRow_safe (m row : JSVal) (y : Nat) (hrow : m.getIndex y = .ok row)
    (hs : rowSafe row = true) : ∃ ops, drawRow m y = .ok ops := by
  simp only [rowSafe, Bool.and_eq_true, List.all_eq_true, List.mem_range] at hs
  obtain ⟨cells, hcells⟩ := mapM_ok_exists (fun x => drawCell m y x) (List.range MAP_W)
    (fun x hx => by
      have hx13 : x < 13 := List.mem_range.mp hx
      have h := hs.2 x hx13
      cases htile : row.getIndex x with
      | error e => simp [htile] at h
      | ok tile =>
        simp only [htile] at h
        exact drawCell_safe m row tile y x hrow htile h)
  unfold drawRow
  simp only [hcells, bind, Except.bind, pure, Except.pure]
  exact ⟨_, rfl⟩

theorem drawMap_safe (cv : Canvas) (s : Store) (h : mapSafe s.serverState.map = true) :
    ∃ ops, drawMap cv s = .ok ops := by
  unfold drawMap
  by_cases ht : s.serverState.map.truthy = true
  · simp only [mapSafe, ht, Bool.not_true, Bool.false_or, List.all_eq_true,
      List.mem_range] at h
    obtain ⟨rows, hrows⟩ := mapM_ok_exists (fun y => drawRow s.serverState.map y)
      (List.range MAP_H)
      (fun y hy => by
        have hy13 : y < 13 := List.mem_range.mp hy
        have hr := h y hy13
        cases hrow : s.serverState.map.getIndex y with
        | error e => simp [hrow] at hr
        | ok row =>
          simp only [hrow] at hr
          exact drawRow_safe _ row y hrow hr)
    simp only [ht, Bool.not_true, Bool.false_eq_true, if_false, hrows, bind, Except.bind, pure,
      Except.pure]
    exact ⟨_, rfl⟩
  · simp only [Bool.not_eq_true] at ht
    simp only [ht, Bool.not_false, if_true]
    exact ⟨_, rfl⟩

theorem drawTank_safe (p : JSVal) (color : String) (h : slotSafe p = true) :
    ∃ ops, drawTank p color = .ok ops := by
  simp only [slotSafe, Bool.and_eq_true, Bool.or_eq_true, Bool.not_eq_true'] at h
  obtain ⟨⟨hp, -⟩, hdraw⟩ := h
  unfold drawTank
  by_cases ht : p.truthy = true
  · simp only [ht, Bool.not_true, Bool.false_eq_true, if_false, getProp_active p hp,
      getProp_x p hp, getProp_y p hp, getProp_dirX p hp, getProp_dirY p hp, bind, Except.bind,
      pure, Except.pure]
    by_cases ha : (p.field "active").truthy = true
    · have hxy : (p.field "x").converts = true ∧ (p.field "y").converts = true := by
        rcases hdraw with hd | hd
        · simp [ht, ha] at hd
        · exact hd
      obtain ⟨x12, hx12⟩ := sub_ok (p.field "x") (.num 12) hxy.1
      obtain ⟨y12, hy12⟩ := sub_ok (p.field "y") (.num 12) hxy.2
      obtain ⟨x3, hx3⟩ := sub_ok (p.field "x") (.num 3) hxy.1
      obtain ⟨y3, hy3⟩ := sub_ok (p.field "y") (.num 3) hxy.2
      obtain ⟨xp, hxp⟩ := add_ok (p.field "x") 12 hxy.1
      obtain ⟨yp, hyp⟩ := add_ok (p.field "y") 12 hxy.2
      simp only [ha, Bool.not_true, Bool.false_eq_true, if_false, hx12, hy12, hx3, hy3, hxp,
        hyp]
      split_ifs <;> exact ⟨_, rfl⟩
    · simp only [Bool.not_eq_true] at ha
      simp only [ha, Bool.not_false, if_true]
      exact ⟨_, rfl⟩
  · simp only [Bool.not_eq_true] at ht
    simp only [ht, Bool.not_false, if_true]
    exact ⟨_, rfl⟩

theorem drawBullet_safe (b : JSVal) (h : bulletSafe b = true) :
    ∃ ops, drawBullet b = .ok ops := by
  unfold drawBullet
  by_cases ht : b.truthy = true
  · simp only [bulletSafe, ht, Bool.not_true, Bool.false_or, Bool.and_eq_true] at h
    obtain ⟨⟨hsize, hx⟩, hy⟩ := h
    have hp := present_of_truthy b ht
    have hs : (if (b.field "size").truthy = true then b.field "size" else JSVal.num 6).converts
        = true := by
      split_ifs
      · exact hsize
      · rfl
    obtain ⟨half, hhalf⟩ := divLit_ok _ 2 hs
    obtain ⟨left, hleft⟩ := sub_ok (b.field "x") half hx
    obtain ⟨top, htop⟩ := sub_ok (b.field "y") half hy
    obtain ⟨side, hside⟩ := toNumber_ok _ hs
    simp only [ht, if_true, getProp_size b hp, getProp_x b hp, getProp_y b hp, hhalf, hleft,
      htop, hside, bind, Except.bind, pure, Except.pure]
    exact ⟨_, rfl⟩
  · simp only [Bool.not_eq_true] at ht
    simp only [ht, Bool.false_eq_true, if_false]
    exact ⟨_, rfl⟩

theorem drawBullets_safe (s : Store) (h : bulletsSafe s.serverState.bullets = true) :
    ∃ ops, drawBullets s = .ok ops := by
  simp only [bulletsSafe, Bool.and_eq_true] at h
  obtain ⟨⟨hp, h1⟩, h2⟩ := h
  obtain ⟨o1, ho1⟩ := drawBullet_safe _ h1
  obtain ⟨o2, ho2⟩ := drawBullet_safe _ h2
  unfold drawBullets
  simp only [getProp_p1 _ hp, getProp_p2 _ hp, ho1, ho2, bind, Except.bind, pure, Except.pure]
  exact ⟨_, rfl⟩

theorem hudText_safe (label : String) (p : JSVal) (h : slotSafe p = true) :
    ∃ text, hudText label p = .ok text := by
  simp only [slotSafe, Bool.and_eq_true] at h
  obtain ⟨⟨hp, hl⟩, -⟩ := h
  obtain ⟨shown, hshown⟩ := toDisplayString_ok _ hl
  unfold hudText
  simp only [getProp_lives p hp, getProp_active p hp, hshown, bind, Except.bind, pure,
    Except.pure]
  exact ⟨_, rfl⟩

theorem drawHUD_safe (cv : Canvas) (s : Store) (h1 : slotSafe s.serverState.players.p1 = true)
    (h2 : slotSafe s.serverState.players.p2 = true) : ∃ ops, drawHUD cv s = .ok ops := by
  obtain ⟨t1, ht1⟩ := hudText_safe "P1" _ h1
  obtain ⟨t2, ht2⟩ := hudText_safe "P2" _ h2
  unfold drawHUD
  simp only [ht1, ht2, bind, Except.bind, pure, Except.pure]
  split_ifs <;> exact ⟨_, rfl⟩

theorem loop_safe (cv : Canvas) (s : Store) (h : FrameSafe (renderPart s)) :
    ∃ ops, loop cv s = .ok ops ∧ ops.getLast? = some .requestAnimationFrame := by
  obtain ⟨hmap, hp1, hp2, hb⟩ := h
  obtain ⟨m, hm⟩ := drawMap_safe cv s hmap
  obtain ⟨t1, ht1⟩ := drawTank_safe s.serverState.players.p1 "#4caf50" hp1
  obtain ⟨t2, ht2⟩ := drawTank_safe s.serverState.players.p2 "#ff9800" hp2
  obtain ⟨b, hb⟩ := drawBullets_safe s hb
  obtain ⟨hd, hhd⟩ := drawHUD_safe cv s hp1 hp2
  have hl : ∃ ops, loop cv s = .ok ops := by
    unfold loop
    simp only [hm, ht1, ht2, hb, hhd, bind, Except.bind, pure, Except.pure]
    exact ⟨_, rfl⟩
  obtain ⟨ops, hops⟩ := hl
  exact ⟨ops, hops, loop_ends_with_request cv s ops hops⟩

theorem sendInput_renderPart (s : Store) : renderPart (sendInput s) = renderPart s := by
  unfold sendInput
  cases s.socket with
  | none => rfl
  | some sock =>
    dsimp only
    split <;> rfl

theorem onMatchStart_renderPart (s : Store) (p : JSVal) :
    renderPart (onMatchStart s p).store = renderPart s := by
  unfold onMatchStart
  refine tryRead_frame _ _ _ _ _ rfl fun _ => ?_
  refine tryRead_frame _ _ _ _ _ rfl fun _ => ?_
  dsimp only
  cases s.socket with
  | none => rfl
  | some sock =>
    dsimp only
    refine tryRead_frame _ _ _ _ _ rfl fun r => ?_
    dsimp only
    cases roleToUpperCase r <;> rfl

theorem onMatchEnd_renderPart (s : Store) (p : JSVal) :
    renderPart (onMatchEnd s p).store = renderPart s := by
  unfold onMatchEnd
  exact tryRead_frame _ _ _ _ _ rfl fun _ => rfl

theorem step_frameSafe (s : Store) (ev : Event) (hev : ev.KeepsFrameSafe)
    (h : FrameSafe (renderPart s)) : FrameSafe (renderPart (step s ev)) := by
  cases ev with
  | matchStart p => simpa only [step, onMatchStart_renderPart] using h
  | matchEnd p => simpa only [step, onMatchEnd_renderPart] using h
  | disconnect => exact h
  | state p =>
    obtain ⟨u, hc, hu⟩ := hev
    simp only [step, onState_of_carries s p u hc]
    exact hu
  | key e =>
    simp only [step, onKey_eq]
    cases e.flag with
    | none => exact h
    | some f =>
      dsimp only
      rw [sendInput_renderPart]
      exact h

theorem run_frameSafe (evs : List Event) (s : Store) (hev : ∀ ev ∈ evs, ev.KeepsFrameSafe)
    (h : FrameSafe (renderPart s)) : FrameSafe (renderPart (run s evs)) := by
  induction evs generalizing s with
  | nil => exact h
  | cons ev evs ih =>
    simp only [run, List.foldl_cons]
    exact ih (step s ev) (fun e he => hev e (List.mem_cons_of_mem _ he))
      (step_frameSafe s ev (hev ev (List.mem_cons_self _ _)) h)

theorem frameSafe_initial_snapshot (s : Store)
    (h : s.serverState = (Store.initial "").serverState) : FrameSafe (renderPart s) := by
  simp only [renderPart, h]
  exact ⟨by decide, by decide, by decide, by decide⟩

theorem drawTank_initialPlayer (color : String) :
    drawTank initialPlayer color =
      .ok [.setFillStyle color, .fillRect (.num (0 - 12)) (.num (0 - 12)) (.num 24) (.num 24),
           .setFillStyle "#ddd"] := by
  simp [drawTank, initialPlayer, JSVal.truthy, JSVal.getProp, List.lookup, JSVal.sub,
    JSVal.toNumber, numOp, JSVal.strictEqNum, bind, Except.bind, pure, Except.pure]

/-- C8, as stated, fails: on a connected session in a match, after a `state`
event whose map has a single row, after one without a `bullets` record, after
one whose `players.p1` is null and after one whose tiles are objects with an
own `toString`, the handler has completed normally and the next run of `loop`
throws a `TypeError` (in `drawMap`, `drawBullets`, `drawHUD` and `drawMap`),
so no next frame is requested. -/
theorem render_loop_throws_on_partial_state :
    (onState sampleInMatch shortMapUpdate).error = none ∧
    ThrowsTypeError (loop ⟨416, 416⟩ (run sampleInMatch [.state shortMapUpdate])) ∧
    (onState sampleInMatch noBulletsUpdate).error = none ∧
    ThrowsTypeError (loop ⟨416, 416⟩ (run sampleInMatch [.state noBulletsUpdate])) ∧
    (onState sampleInMatch nullPlayerUpdate).error = none ∧
    ThrowsTypeError (loop ⟨416, 416⟩ (run sampleInMatch [.state nullPlayerUpdate])) ∧
    (onState sampleInMatch exoticTileUpdate).error = none ∧
    ThrowsTypeError (loop ⟨416, 416⟩ (run sampleInMatch [.state exoticTileUpdate])) := by
  refine ⟨rfl, ?_, rfl, ?_, rfl, ?_, rfl, ?_⟩
  · exact loop_stops_at_drawMap _ _ ⟨_, rfl⟩
  · exact loop_stops_at_drawBullets _ _ _ _ _ rfl (drawTank_initialPlayer _)
      (drawTank_initialPlayer _) ⟨_, rfl⟩
  · exact loop_stops_at_drawHUD _ _ _ _ _ _ rfl rfl (drawTank_initialPlayer _) rfl ⟨_, rfl⟩
  · exact loop_stops_at_drawMap _ _ ⟨_, rfl⟩

/-- C8, amended: one run of `loop` completes without an exception and ends by
requesting the next frame in every store whose snapshot can be drawn - the map
is falsy or has its first 13 rows (rows may have fewer than 13 columns), both
player slots and the bullets record are present, and no value the frame
converts to a number or a text is an object with an own `toString` or an array
holding one.  The snapshot the script starts with can be drawn, and so can
every store reached from one that can be drawn by `match_start`, `match_end`
and `disconnect` events with arbitrary payloads, keyboard edges, and `state`
events whose world update can be drawn. -/
theorem render_cycle_completes_when_drawable (cv : Canvas) (s : Store) :
    (FrameSafe (renderPart s) →
      ∃ ops, loop cv s = .ok ops ∧ ops.getLast? = some .requestAnimationFrame) ∧
    (s.serverState = (Store.initial "").serverState → FrameSafe (renderPart s)) ∧
    (∀ evs : List Event, FrameSafe (renderPart s) → (∀ ev ∈ evs, ev.KeepsFrameSafe) →
      FrameSafe (renderPart (run s evs)) ∧
      ∃ ops, loop cv (run s evs) = .ok ops ∧ ops.getLast? = some .requestAnimationFrame) :=
  ⟨loop_safe cv s, frameSafe_initial_snapshot s,
    fun evs h hev => ⟨run_frameSafe evs s hev h, loop_safe cv _ (run_frameSafe evs s hev h)⟩⟩

/-- C8 amended, at an instance: a connected session receives a world update
with 13 rows of 3 columns, an empty player record and a bullet without a size,
then a `match_end` with a text as payload and a disconnect; the frame
completes and requests the next one. -/
theorem render_cycle_completes_when_drawable_witness :
    ∃ ops, loop ⟨416, 416⟩ (run sampleConnected oddSession) = .ok ops ∧
      ops.getLast? = some .requestAnimationFrame :=
  ((render_cycle_completes_when_drawable ⟨416, 416⟩ sampleConnected).2.2 oddSession
    ((render_cycle_completes_when_drawable ⟨416, 416⟩ sampleConnected).2.1 rfl)
    (by
      intro ev hev
      simp only [oddSession, List.mem_cons, List.mem_singleton, List.mem_nil_iff,
        or_false] at hev
      rcases hev with rfl | rfl | rfl | rfl | rfl
      · trivial
      · exact ⟨⟨.arr (List.replicate 13 (.arr [.num 1, .str "5", .arr [.num 2]])),
            .obj [], .str "gone",
            .obj [("p1", .obj [("x", .num 5), ("y", .str "7")]), ("p2", .bool false)],
            .str "yes", .num 7⟩,
          ⟨rfl, ⟨.obj [("p1", .obj []), ("p2", .str "gone")], rfl, rfl, rfl⟩, rfl, rfl, rfl⟩,
          by decide, by decide, by decide, by decide⟩
      · trivial
      · trivial
      · trivial)).2

end Tank
